import Mathlib

/-!
Verification development for the praxis quantization config rewriter
(`praxis/layers/quantization/quantize.py`) and the pax_fiddle template
config model exercised by `praxis/pax_fiddle_test.py`.

The Python code mutates fiddle `Config` graphs in place and signals
failures by raising exceptions.  The embedding below represents a config
graph as an inductive value, a rewriting function as a function returning
the (possibly partially) rewritten graph together with an optional raised
error, and Python's class objects as records carrying the bare class name
(`__name__`) together with the qualified identifiers of all ancestors, so
that `issubclass` becomes an ancestor-list membership test.
-/

namespace Praxis

/-- The quantization family enumeration (PTQ, FQ, AQT) from
`quantization_hparams.QuantizationType`. -/
inductive QuantizationType where
  | PTQ
  | FQ
  | AQT
deriving DecidableEq, Repr

/-- The quantization mode enumeration from
`quantization_hparams.QuantizationMode`. -/
inductive QuantizationMode where
  | TRAINING
  | INFERENCE
  | MATERIALIZE
deriving DecidableEq, Repr

/-- Element storage dtypes that appear in the rewriter's signatures
(`jnp.int8`, `jnp.int32`, ...). -/
inductive JnpDType where
  | int4
  | int8
  | int32
  | float32
deriving DecidableEq, Repr

/-- Activation quantization parameters
(`quantization_hparams.ActQuantizationParams`); the rewriter only ever
sets the precision field. -/
structure ActQuantizationParams where
  precision : Int
deriving DecidableEq, Repr

/-- Weight quantization parameters
(`quantization_hparams.WeightQuantizationParams`), with the fields the
rewriter constructs. -/
structure WeightQuantizationParams where
  precision : Int
  use_symmetric : Bool
  dtype : JnpDType
  block_size : Int := 0
  use_int4_packed_weights : Bool := true
  int4_packed_weights_container_dtype : JnpDType := JnpDType.int32
deriving DecidableEq, Repr

/-- The quantization parameter bundle attached to rewritten templates
(`quantization_hparams.QuantizationParams`): family, mode, optional
activation parameters, weight parameters. -/
structure QuantizationParams where
  quantization_type : QuantizationType
  mode : QuantizationMode
  act_params : Option ActQuantizationParams := none
  weight_params : Option WeightQuantizationParams := none
deriving DecidableEq, Repr

/-- A Python class object, reduced to what the rewriter inspects: its bare
`__name__` (used by the substring dispatch on multi-query attention), a
qualified identifier, and the qualified identifiers of all its ancestors
(itself included), so that `issubclass` is a membership test. -/
structure ClassInfo where
  name : String
  qualId : String
  ancestors : List String
deriving DecidableEq, Repr

/-- Python's `issubclass(c, d)` over the ancestor-list representation. -/
def isSubclassOf (c d : ClassInfo) : Bool :=
  c.ancestors.contains d.qualId

/-- Whether `needle` is a leading segment of `hay`. -/
def charListStarts : List Char → List Char → Bool
  | [], _ => true
  | _ :: _, [] => false
  | a :: as, b :: bs => a == b && charListStarts as bs

/-- Whether `needle` occurs contiguously inside `hay`. -/
def charListHasSub (needle : List Char) : List Char → Bool
  | [] => needle.isEmpty
  | b :: bs => charListStarts needle (b :: bs) || charListHasSub needle bs

/-- Python's `needle in hay` on strings. -/
def strHasSub (hay needle : String) : Bool :=
  charListHasSub needle.toList hay.toList

/-- Errors raised by the rewriter: `ValueError` (the spec's
UnsupportedArchitecture), `AttributeError` (missing attribute), and
`AssertionError` (the spec's InvariantViolation, from the `assert` in the
decorator wrappers). -/
inductive PyErr where
  | valueError (msg : String)
  | attributeError (attr : String)
  | assertionError
deriving DecidableEq, Repr

/-- A value stored in a config node argument slot: a primitive, Python
`None`, a `QuantizationParams` bundle, a nested config node, or a sequence
of values. A config node carries its target class and an ordered argument
list, mirroring a fiddle `Config`. -/
inductive CVal where
  | prim (n : Int)
  | pynone
  | qparams (q : QuantizationParams)
  | node (cls : ClassInfo) (args : List (String × CVal))
  | seq (elems : List CVal)

/-- Look up an argument by name in a node's argument list. -/
def lookupArg : List (String × CVal) → String → Option CVal
  | [], _ => none
  | (k, v) :: rest, key => if k = key then some v else lookupArg rest key

/-- Set an argument by name: overwrite in place if present, append
otherwise (Python attribute assignment on a fiddle config). -/
def setArgList : List (String × CVal) → String → CVal → List (String × CVal)
  | [], key, v => [(key, v)]
  | (k, w) :: rest, key, v =>
      if k = key then (k, v) :: rest else (k, w) :: setArgList rest key v

/-- Read attribute `key` of a config value; only nodes have attributes. -/
def CVal.getArg : CVal → String → Option CVal
  | .node _ args, key => lookupArg args key
  | _, _ => none

/-- Assign attribute `key` of a config value; a no-op on non-nodes (the
rewriter only ever assigns on nodes). -/
def CVal.setArg : CVal → String → CVal → CVal
  | .node cls args, key, v => .node cls (setArgList args key v)
  | other, _, _ => other

/-- The target class of a config value, when it is a node. -/
def CVal.cls? : CVal → Option ClassInfo
  | .node cls _ => some cls
  | _ => none

/-! The praxis layer classes the rewriter dispatches on.  These live in
the wider praxis library; only the facts the rewriter inspects are
recorded: each class's bare name, qualified identifier and ancestor set.
`MultiQueryDotProductAttention` is not a subclass of
`DotProductAttention`, and `VQNgrammer` is not a subclass of `Ngrammer`
(the two attention families and the two ngrammer families are disjoint,
as the specification's dispatch description assumes). -/

def baseLayerQual : String := "base_layer.BaseLayer"

def layers_Transformer : ClassInfo :=
  ⟨"Transformer", "layers.transformers.Transformer",
   ["layers.transformers.Transformer", baseLayerQual]⟩

def layers_TransformerFeedForward : ClassInfo :=
  ⟨"TransformerFeedForward", "layers.transformers.TransformerFeedForward",
   ["layers.transformers.TransformerFeedForward", baseLayerQual]⟩

def layers_TransformerLm : ClassInfo :=
  ⟨"TransformerLm", "layers.TransformerLm",
   ["layers.TransformerLm", baseLayerQual]⟩

def layers_DotProductAttention : ClassInfo :=
  ⟨"DotProductAttention", "layers.attentions.DotProductAttention",
   ["layers.attentions.DotProductAttention", baseLayerQual]⟩

def layers_MultiQueryDotProductAttention : ClassInfo :=
  ⟨"MultiQueryDotProductAttention",
   "layers.multi_query_attention.MultiQueryDotProductAttention",
   ["layers.multi_query_attention.MultiQueryDotProductAttention",
    baseLayerQual]⟩

def layers_SharedEmbeddingSoftmax : ClassInfo :=
  ⟨"SharedEmbeddingSoftmax", "layers.SharedEmbeddingSoftmax",
   ["layers.SharedEmbeddingSoftmax", baseLayerQual]⟩

def layers_Ngrammer : ClassInfo :=
  ⟨"Ngrammer", "layers.ngrammer.Ngrammer",
   ["layers.ngrammer.Ngrammer", baseLayerQual]⟩

def layers_VQNgrammer : ClassInfo :=
  ⟨"VQNgrammer", "layers.ngrammer.VQNgrammer",
   ["layers.ngrammer.VQNgrammer", baseLayerQual]⟩

/-! The quantized replacement classes from `praxis.layers.quantization`. -/

def quantization_AttentionProjection : ClassInfo :=
  ⟨"AttentionProjection", "quantization.AttentionProjection",
   ["quantization.AttentionProjection", baseLayerQual]⟩

def quantization_CombinedQKVProjectionLayer : ClassInfo :=
  ⟨"CombinedQKVProjectionLayer",
   "quantization.attentions.CombinedQKVProjectionLayer",
   ["quantization.attentions.CombinedQKVProjectionLayer", baseLayerQual]⟩

def quantization_OneHeadedAttentionProjection : ClassInfo :=
  ⟨"OneHeadedAttentionProjection",
   "quantization.multi_query_attention.OneHeadedAttentionProjection",
   ["quantization.multi_query_attention.OneHeadedAttentionProjection",
    baseLayerQual]⟩

def quantization_Linear : ClassInfo :=
  ⟨"Linear", "quantization.Linear",
   ["quantization.Linear", baseLayerQual]⟩

def quantization_SharedEmbeddingSoftmax : ClassInfo :=
  ⟨"SharedEmbeddingSoftmax", "quantization.SharedEmbeddingSoftmax",
   ["quantization.SharedEmbeddingSoftmax", baseLayerQual]⟩

def quantization_NClassMajorSharedEmbeddingSoftmax : ClassInfo :=
  ⟨"NClassMajorSharedEmbeddingSoftmax",
   "quantization.NClassMajorSharedEmbeddingSoftmax",
   ["quantization.NClassMajorSharedEmbeddingSoftmax", baseLayerQual]⟩

def quantization_Ngrammer : ClassInfo :=
  ⟨"Ngrammer", "quantization.Ngrammer",
   ["quantization.Ngrammer", baseLayerQual]⟩

def quantization_VQNgrammer : ClassInfo :=
  ⟨"VQNgrammer", "quantization.VQNgrammer",
   ["quantization.VQNgrammer", baseLayerQual]⟩

def quantization_Conv2D : ClassInfo :=
  ⟨"Conv2D", "quantization.Conv2D",
   ["quantization.Conv2D", baseLayerQual]⟩

/-! The rewriting functions of `praxis/layers/quantization/quantize.py`.
Each Python function mutates its config argument in place and may raise;
here each returns the rewritten config together with an optional error,
the returned config reflecting exactly the mutations performed before the
error (if any) was raised. -/

/-- Argument-list core of `copy_fields_from`: write each source field
onto the target argument list, skipping the quantization field. -/
def copy_args_onto (tArgs : List (String × CVal)) :
    List (String × CVal) → List (String × CVal)
  | [] => tArgs
  | (k, v) :: rest =>
      copy_args_onto
        (if k = "quantization" then tArgs else setArgList tArgs k v) rest

/-- Modelled from the spec: `pax_fiddle`'s `Config.copy_fields_from`,
which is called by the embedding-softmax and ngrammer rewrites but whose
implementation is not part of this excerpt.  Per the spec, every
structurally-compatible field already set on the source template is
copied onto the target, and fields special to quantization are not
copied. -/
def copy_fields_from (tgt : CVal) (src : CVal) : CVal :=
  match src, tgt with
  | .node _ srcArgs, .node tCls tArgs => .node tCls (copy_args_onto tArgs srcArgs)
  | _, _ => tgt

/-- Lines 54-91 of quantize.py: `_quantize_embedding_softmax_layer_weights`.
Checks that the softmax sub-template belongs to the shared-embedding
softmax family, then replaces it by the (transposed or plain) quantized
class carrying weight-only quantization parameters, copying the old
fields over; otherwise raises a `ValueError` naming the type found. -/
def quantize_embedding_softmax_layer_weights
    (lm_tpl : CVal)
    (quantization_type : QuantizationType)
    (mode : QuantizationMode)
    (weight_quantization_params : WeightQuantizationParams)
    (transposed_embedding_softmax : Bool) : CVal × Option PyErr :=
  match lm_tpl.getArg "softmax_tpl" with
  | some (.node softmaxCls softmaxArgs) =>
      if isSubclassOf softmaxCls layers_SharedEmbeddingSoftmax then
        let newCls :=
          if transposed_embedding_softmax then
            quantization_NClassMajorSharedEmbeddingSoftmax
          else
            quantization_SharedEmbeddingSoftmax
        let new_softmax_tpl : CVal :=
          .node newCls
            [("quantization",
              .qparams
                { quantization_type := quantization_type
                  mode := mode
                  act_params := none
                  weight_params := some weight_quantization_params })]
        let new_softmax_tpl :=
          copy_fields_from new_softmax_tpl (.node softmaxCls softmaxArgs)
        (lm_tpl.setArg "softmax_tpl" new_softmax_tpl, none)
      else
        (lm_tpl,
         some (.valueError
           ("lm_tpl.softmax_tpl.cls is : " ++ softmaxCls.qualId ++
            "but has to be layers.SharedEmbeddingSoftmax")))
  | some _ =>
      (lm_tpl, some (.attributeError "softmax_tpl.cls"))
  | none =>
      (lm_tpl, some (.attributeError "softmax_tpl"))

/-- Lines 94-119 of quantize.py: `_quantize_ngrammer_embedding_weights`.
A no-op when no ngrammer template is configured; dispatches plain and
vector-quantized ngrammer families to their distinct quantized classes,
copying old fields; silently skips any other ngrammer type. -/
def quantize_ngrammer_embedding_weights
    (lm_tpl : CVal)
    (quantization_type : QuantizationType)
    (mode : QuantizationMode)
    (weight_quantization_params : WeightQuantizationParams) :
    CVal × Option PyErr :=
  match lm_tpl.getArg "ngrammer_tpl" with
  | some .pynone => (lm_tpl, none)
  | some (.node ngramCls ngramArgs) =>
      let newCls? : Option ClassInfo :=
        if isSubclassOf ngramCls layers_Ngrammer then
          some quantization_Ngrammer
        else if isSubclassOf ngramCls layers_VQNgrammer then
          some quantization_VQNgrammer
        else
          none
      match newCls? with
      | none => (lm_tpl, none)
      | some newCls =>
          let new_ngrammer_tpl : CVal :=
            .node newCls
              [("quantization",
                .qparams
                  { quantization_type := quantization_type
                    mode := mode
                    act_params := none
                    weight_params := some weight_quantization_params })]
          let new_ngrammer_tpl :=
            copy_fields_from new_ngrammer_tpl (.node ngramCls ngramArgs)
          (lm_tpl.setArg "ngrammer_tpl" new_ngrammer_tpl, none)
  | some _ => (lm_tpl, some (.attributeError "ngrammer_tpl.cls"))
  | none => (lm_tpl, some (.attributeError "ngrammer_tpl"))

/-- Lines 201-229 of quantize.py:
`quantize_dot_product_attention_layer_weights`.  Installs fresh quantized
projection and combined-QKV projection templates (no field copying in the
source). -/
def quantize_dot_product_attention_layer_weights
    (attn_tpl : CVal)
    (quantization_type : QuantizationType)
    (mode : QuantizationMode)
    (weight_quantization_params : WeightQuantizationParams)
    (act_quantization_params : Option ActQuantizationParams) : CVal :=
  let attn_tpl := attn_tpl.setArg "proj_tpl"
    (.node quantization_AttentionProjection
      [("quantization",
        .qparams
          { quantization_type := quantization_type
            mode := mode
            act_params := act_quantization_params
            weight_params := some weight_quantization_params })])
  attn_tpl.setArg "combined_qkv_proj_tpl"
    (.node quantization_CombinedQKVProjectionLayer
      [("quantization",
        .qparams
          { quantization_type := quantization_type
            mode := mode
            act_params := act_quantization_params
            weight_params := some weight_quantization_params })])

/-- Lines 231-260 of quantize.py:
`quantize_mq_dot_product_attention_layer_weights`.  Installs fresh
quantized projection and one-headed (headless) projection templates. -/
def quantize_mq_dot_product_attention_layer_weights
    (attn_tpl : CVal)
    (quantization_type : QuantizationType)
    (mode : QuantizationMode)
    (weight_quantization_params : WeightQuantizationParams)
    (act_quantization_params : Option ActQuantizationParams) : CVal :=
  let attn_tpl := attn_tpl.setArg "proj_tpl"
    (.node quantization_AttentionProjection
      [("quantization",
        .qparams
          { quantization_type := quantization_type
            mode := mode
            act_params := act_quantization_params
            weight_params := some weight_quantization_params })])
  attn_tpl.setArg "headless_proj_tpl"
    (.node quantization_OneHeadedAttentionProjection
      [("quantization",
        .qparams
          { quantization_type := quantization_type
            mode := mode
            act_params := act_quantization_params
            weight_params := some weight_quantization_params })])

/-- Lines 157-198 of quantize.py: `quantize_attention_layer_weights`.
Dispatches on the attention sub-template's class: the dot-product
attention family by `issubclass`, then the multi-query family by a
substring match on the bare class name; any other family raises a
`ValueError` naming the class found. -/
def quantize_attention_layer_weights
    (tr_tpl : CVal)
    (quantization_type : QuantizationType)
    (mode : QuantizationMode)
    (weight_quantization_params : WeightQuantizationParams)
    (act_quantization_params : Option ActQuantizationParams) :
    CVal × Option PyErr :=
  match tr_tpl.getArg "tr_atten_tpl" with
  | some (.node attenCls attenArgs) =>
      if isSubclassOf attenCls layers_DotProductAttention then
        (tr_tpl.setArg "tr_atten_tpl"
          (quantize_dot_product_attention_layer_weights
            (.node attenCls attenArgs) quantization_type mode
            weight_quantization_params act_quantization_params), none)
      else if strHasSub attenCls.name "MultiQueryDotProductAttention" then
        (tr_tpl.setArg "tr_atten_tpl"
          (quantize_mq_dot_product_attention_layer_weights
            (.node attenCls attenArgs) quantization_type mode
            weight_quantization_params act_quantization_params), none)
      else
        (tr_tpl,
         some (.valueError
           ("tr_tpl.tr_atten_tpl.cls is : " ++ attenCls.qualId ++
            "but has to be DotProductAttention or" ++
            " MultiQueryDotProductAttention")))
  | some _ => (tr_tpl, some (.attributeError "tr_atten_tpl.cls"))
  | none => (tr_tpl, some (.attributeError "tr_atten_tpl"))

/-- Lines 263-284 of quantize.py:
`quantize_transformer_feed_forward_layer_weights`.  Replaces the nested
`fflayer_tpl.linear_tpl` by a fresh quantized linear template carrying
the quantization parameters and the rank (no field copying in the
source). -/
def quantize_transformer_feed_forward_layer_weights
    (tr_fflayer_tpl : CVal)
    (quantization_type : QuantizationType)
    (mode : QuantizationMode)
    (weight_quantization_params : WeightQuantizationParams)
    (act_quantization_params : Option ActQuantizationParams)
    (rank : Int) : CVal × Option PyErr :=
  match tr_fflayer_tpl.getArg "fflayer_tpl" with
  | some (.node ffCls ffArgs) =>
      let new_linear_tpl : CVal :=
        .node quantization_Linear
          [("quantization",
            .qparams
              { quantization_type := quantization_type
                mode := mode
                act_params := act_quantization_params
                weight_params := some weight_quantization_params }),
           ("rank", .prim rank)]
      (tr_fflayer_tpl.setArg "fflayer_tpl"
        ((CVal.node ffCls ffArgs).setArg "linear_tpl" new_linear_tpl), none)
  | some _ => (tr_fflayer_tpl, some (.attributeError "fflayer_tpl.linear_tpl"))
  | none => (tr_fflayer_tpl, some (.attributeError "fflayer_tpl"))

/-- Lines 123-154 of quantize.py: `quantize_transformer_layer_weights`.
Unless `linear_only` is set, first quantizes the attention sub-template
(which may raise and abort the call); then always quantizes the
feed-forward linear sub-template. -/
def quantize_transformer_layer_weights
    (tr_tpl : CVal)
    (quantization_type : QuantizationType)
    (mode : QuantizationMode)
    (weight_quantization_params : WeightQuantizationParams)
    (act_quantization_params : Option ActQuantizationParams)
    (linear_only : Bool)
    (rank : Int) : CVal × Option PyErr :=
  let afterAtten : CVal × Option PyErr :=
    if linear_only then (tr_tpl, none)
    else
      quantize_attention_layer_weights tr_tpl quantization_type mode
        weight_quantization_params act_quantization_params
  match afterAtten with
  | (tr_tpl, some e) => (tr_tpl, some e)
  | (tr_tpl, none) =>
      match tr_tpl.getArg "tr_fflayer_tpl" with
      | some (.node ffCls ffArgs) =>
          match quantize_transformer_feed_forward_layer_weights
              (.node ffCls ffArgs) quantization_type mode
              weight_quantization_params act_quantization_params rank with
          | (ff', some e) => (tr_tpl.setArg "tr_fflayer_tpl" ff', some e)
          | (ff', none) => (tr_tpl.setArg "tr_fflayer_tpl" ff', none)
      | some _ => (tr_tpl, some (.attributeError "tr_fflayer_tpl.fflayer_tpl"))
      | none => (tr_tpl, some (.attributeError "tr_fflayer_tpl"))

/-! The model-wide entry points iterate `utils.find_target_tpl` (which is
not part of this excerpt) over the config and mutate each matched node in
place.  `rewrite_target_tpls` below is modelled from the spec: it fuses
the lazy search with the caller's mutation loop, applying the rewrite at
every node whose class is, or subclasses, the target, by a depth-first
walk over the then-current node arguments (children first; per the spec
the traversal order is unspecified and no node is visited twice).  An
error raised by the rewrite aborts the walk, keeping the mutations
already performed. -/

mutual

/-- Modelled from the spec: `utils.find_target_tpl` fused with the
caller's per-match mutation loop. -/
def rewrite_target_tpls (t : ClassInfo) (f : CVal → CVal × Option PyErr) :
    CVal → CVal × Option PyErr
  | .node c as =>
      match rewriteTplArgs t f as with
      | (as', some e) => (.node c as', some e)
      | (as', none) =>
          if isSubclassOf c t then f (.node c as') else (.node c as', none)
  | .seq es =>
      match rewriteTplElems t f es with
      | (es', e) => (.seq es', e)
  | v => (v, none)

/-- Argument-list companion of `rewrite_target_tpls`. -/
def rewriteTplArgs (t : ClassInfo) (f : CVal → CVal × Option PyErr) :
    List (String × CVal) → List (String × CVal) × Option PyErr
  | [] => ([], none)
  | (k, v) :: rest =>
      match rewrite_target_tpls t f v with
      | (v', some e) => ((k, v') :: rest, some e)
      | (v', none) =>
          match rewriteTplArgs t f rest with
          | (rest', e) => ((k, v') :: rest', e)

/-- Sequence companion of `rewrite_target_tpls`. -/
def rewriteTplElems (t : ClassInfo) (f : CVal → CVal × Option PyErr) :
    List CVal → List CVal × Option PyErr
  | [] => ([], none)
  | v :: rest =>
      match rewrite_target_tpls t f v with
      | (v', some e) => (v' :: rest, some e)
      | (v', none) =>
          match rewriteTplElems t f rest with
          | (rest', e) => (v' :: rest', e)

end

/-- Lines 507-514 of quantize.py: the weight quantization parameters
constructed by `set_transformer_quantization`. -/
def stq_weight_quantization_params (num_bits : Int) (use_symmetric : Bool)
    (dtype : JnpDType) (block_size : Int) (use_int4_packed_weights : Bool)
    (int4_packed_weights_container_dtype : JnpDType) :
    WeightQuantizationParams :=
  { precision := num_bits
    use_symmetric := use_symmetric
    dtype := dtype
    block_size := block_size
    use_int4_packed_weights := use_int4_packed_weights
    int4_packed_weights_container_dtype :=
      int4_packed_weights_container_dtype }

/-- Lines 515-517 and 581-583 of quantize.py: activation quantization
parameters are constructed exactly when weight-only quantization was not
requested. -/
def opt_act_quantization_params (num_bits : Int) (weight_quant_only : Bool) :
    Option ActQuantizationParams :=
  if weight_quant_only then none
  else some { precision := num_bits }

/-- Lines 576-580 of quantize.py: the weight quantization parameters
constructed by `set_diffusion_quantization` (remaining fields at their
declared defaults). -/
def sdq_weight_quantization_params (num_bits : Int) (use_symmetric : Bool)
    (dtype : JnpDType) : WeightQuantizationParams :=
  { precision := num_bits
    use_symmetric := use_symmetric
    dtype := dtype }

/-- Lines 461-550 of quantize.py: `set_transformer_quantization`.
Builds the parameter values, rewrites every transformer sub-template,
then (when requested) rewrites the embedding/softmax and ngrammer
sub-templates of every language-model sub-template. -/
def set_transformer_quantization (config : CVal)
    (quantization_type : QuantizationType) (mode : QuantizationMode)
    (num_bits : Int) (linear_only : Bool) (use_symmetric : Bool)
    (rank : Int) (weight_quant_only : Bool)
    (quantize_embedding_softmax : Bool)
    (transposed_embedding_softmax : Bool)
    (quantize_ngrammer_embedding : Bool)
    (dtype : JnpDType) (block_size : Int)
    (use_int4_packed_weights : Bool)
    (int4_packed_weights_container_dtype : JnpDType) :
    CVal × Option PyErr :=
  let weight_quantization_params :=
    stq_weight_quantization_params num_bits use_symmetric dtype block_size
      use_int4_packed_weights int4_packed_weights_container_dtype
  let act_quantization_params :=
    opt_act_quantization_params num_bits weight_quant_only
  match rewrite_target_tpls layers_Transformer
      (fun tr =>
        quantize_transformer_layer_weights tr quantization_type mode
          weight_quantization_params act_quantization_params linear_only
          rank) config with
  | (cfg, some e) => (cfg, some e)
  | (cfg, none) =>
      if quantize_embedding_softmax || quantize_ngrammer_embedding then
        rewrite_target_tpls layers_TransformerLm
          (fun lm =>
            let step1 :=
              if quantize_embedding_softmax then
                quantize_embedding_softmax_layer_weights lm
                  quantization_type mode weight_quantization_params
                  transposed_embedding_softmax
              else (lm, none)
            match step1 with
            | (lm1, some e) => (lm1, some e)
            | (lm1, none) =>
                if quantize_ngrammer_embedding then
                  quantize_ngrammer_embedding_weights lm1
                    quantization_type mode weight_quantization_params
                else (lm1, none)) cfg
      else (cfg, none)

/-- The per-match body of the `set_diffusion_quantization` loop (lines
586-596 of quantize.py): install a fresh quantized convolution template
when the matched node declares a `conv_tpl` argument, silently skip it
otherwise. -/
def quantize_diffusion_conv_tpl (diffusion_tpl : CVal)
    (quantization_type : QuantizationType) (mode : QuantizationMode)
    (weight_quantization_params : WeightQuantizationParams)
    (act_quantization_params : Option ActQuantizationParams) : CVal :=
  if (diffusion_tpl.getArg "conv_tpl").isSome then
    diffusion_tpl.setArg "conv_tpl"
      (.node quantization_Conv2D
        [("quantization",
          .qparams
            { quantization_type := quantization_type
              mode := mode
              act_params := act_quantization_params
              weight_params := some weight_quantization_params })])
  else diffusion_tpl

/-- Lines 553-596 of quantize.py: `set_diffusion_quantization`.  For
every node matching the target class that declares a `conv_tpl`
argument, installs a fresh quantized convolution template; no error is
ever raised. -/
def set_diffusion_quantization (config : CVal) (target : ClassInfo)
    (quantization_type : QuantizationType) (mode : QuantizationMode)
    (num_bits : Int) (use_symmetric : Bool) (weight_quant_only : Bool)
    (dtype : JnpDType) : CVal × Option PyErr :=
  let weight_quantization_params :=
    sdq_weight_quantization_params num_bits use_symmetric dtype
  let act_quantization_params :=
    opt_act_quantization_params num_bits weight_quant_only
  rewrite_target_tpls target
    (fun diffusion_tpl =>
      (quantize_diffusion_conv_tpl diffusion_tpl quantization_type mode
        weight_quantization_params act_quantization_params, none)) config

/-- A task config as accessed by the decorator wrappers: a model config
plus the models of the tasks under
`task_p.train.init_from_checkpoint_rules`. -/
inductive TaskP where
  | mk (model : CVal) (ckptRuleTasks : List TaskP)

/-- The model config of a task. -/
def TaskP.model : TaskP → CVal
  | .mk m _ => m

/-- The checkpoint-rule tasks of a task. -/
def TaskP.ckptRuleTasks : TaskP → List TaskP
  | .mk _ ts => ts

/-- Apply a rewrite to a list of model configs in order, aborting at the
first raised error but keeping earlier mutations. -/
def applyToModels (f : CVal → CVal × Option PyErr) :
    List CVal → List CVal × Option PyErr
  | [] => ([], none)
  | m :: rest =>
      match f m with
      | (m', some e) => (m' :: rest, some e)
      | (m', none) =>
          match applyToModels f rest with
          | (rest', e) => (m' :: rest', e)

/-- Write rewritten model configs back into the checkpoint-rule tasks. -/
def writeBackModels : List TaskP → List CVal → List TaskP
  | ts, [] => ts
  | [], _ => []
  | TaskP.mk _ sub :: ts, m :: ms => TaskP.mk m sub :: writeBackModels ts ms

/-- Lines 343-382 of quantize.py: the `task()` method installed by the
`for_transformer` decorator.  After the wrapped class produces `task_p`,
asserts that the bit width is one of 2, 4, 8 (raising an
`AssertionError` otherwise, before any quantization mutation), then
applies `set_transformer_quantization` to the model and, when opted in,
to every checkpoint-rule task's model. -/
def for_transformer_task (num_bits : Int)
    (quantization_type : QuantizationType) (mode : QuantizationMode)
    (use_symmetric : Bool) (rank : Int) (weight_quant_only : Bool)
    (quantize_embedding_softmax : Bool)
    (transposed_embedding_softmax : Bool)
    (quantize_ngrammer_embedding : Bool) (linear_only : Bool)
    (dtype : JnpDType)
    (quantize_init_from_checkpoint_rules_task : Bool)
    (block_size : Int) (task_p : TaskP) : TaskP × Option PyErr :=
  if ([2, 4, 8] : List Int).contains num_bits then
    let models :=
      task_p.model ::
        (if quantize_init_from_checkpoint_rules_task then
          task_p.ckptRuleTasks.map TaskP.model
        else [])
    match applyToModels
        (fun m =>
          set_transformer_quantization m quantization_type mode num_bits
            linear_only use_symmetric rank weight_quant_only
            quantize_embedding_softmax transposed_embedding_softmax
            quantize_ngrammer_embedding dtype block_size true
            JnpDType.int32) models with
    | ([], e) => (task_p, e)
    | (m' :: ckptModels', e) =>
        let ckpt' :=
          if quantize_init_from_checkpoint_rules_task then
            writeBackModels task_p.ckptRuleTasks ckptModels'
          else task_p.ckptRuleTasks
        (TaskP.mk m' ckpt', e)
  else (task_p, some .assertionError)

/-- Lines 424-458 of quantize.py: the `task()` method installed by the
`for_diffusion` decorator; same assertion-first structure with
`set_diffusion_quantization`. -/
def for_diffusion_task (target : ClassInfo) (num_bits : Int)
    (quantization_type : QuantizationType) (mode : QuantizationMode)
    (use_symmetric : Bool) (dtype : JnpDType) (weight_quant_only : Bool)
    (quantize_init_from_checkpoint_rules_task : Bool)
    (task_p : TaskP) : TaskP × Option PyErr :=
  if ([2, 4, 8] : List Int).contains num_bits then
    let models :=
      task_p.model ::
        (if quantize_init_from_checkpoint_rules_task then
          task_p.ckptRuleTasks.map TaskP.model
        else [])
    match applyToModels
        (fun m =>
          set_diffusion_quantization m target quantization_type mode
            num_bits use_symmetric weight_quant_only dtype) models with
    | ([], e) => (task_p, e)
    | (m' :: ckptModels', e) =>
        let ckpt' :=
          if quantize_init_from_checkpoint_rules_task then
            writeBackModels task_p.ckptRuleTasks ckptModels'
          else task_p.ckptRuleTasks
        (TaskP.mk m' ckpt', e)
  else (task_p, some .assertionError)

/-- The per-node body of `set_inference_mode` (lines 607-609 of
quantize.py): if the node carries a quantization argument, set its mode
to INFERENCE; a quantization argument always holds a
`QuantizationParams` value in the graphs the rewriter builds. -/
def set_q_mode_val : CVal → CVal
  | .qparams q => .qparams { q with mode := .INFERENCE }
  | v => v

/-- Applied to a node's arguments: flip the quantization argument's
mode. -/
def set_quantization_mode_inference_args :
    List (String × CVal) → List (String × CVal)
  | [] => []
  | (k, v) :: rest =>
      if k = "quantization" then
        (k, set_q_mode_val v) :: set_quantization_mode_inference_args rest
      else
        (k, v) :: set_quantization_mode_inference_args rest

mutual

/-- Lines 599-618 of quantize.py: `set_inference_mode`.  The worklist
pops an item and unwraps exactly one level of sequence: each element of
a popped sequence gets `set_quantization_mode_inference` and, only when
it is a config, has its argument values pushed.  An element that is
itself a sequence is neither, so it is dropped unmodified; argument
values, by contrast, are pushed whole and get the one-level unwrap when
popped. -/
def set_inference_mode : CVal → CVal
  | .node c as => .node c (set_quantization_mode_inference_args (setInfArgs as))
  | .seq es => .seq (setInfElems es)
  | v => v

/-- Argument-list companion of `set_inference_mode`: argument values are
pushed onto the worklist and processed in full. -/
def setInfArgs : List (String × CVal) → List (String × CVal)
  | [] => []
  | (k, v) :: rest => (k, set_inference_mode v) :: setInfArgs rest

/-- The elements of one popped sequence, each handled by
`set_quantization_mode_inference` plus config expansion. -/
def setInfElems : List CVal → List CVal
  | [] => []
  | v :: rest => setInfElem v :: setInfElems rest

/-- One element of a popped sequence: a config is flipped and its
arguments are pushed; every other element — a nested sequence
included — is left unchanged. -/
def setInfElem : CVal → CVal
  | .node c as => .node c (set_quantization_mode_inference_args (setInfArgs as))
  | v => v

end

mutual

/-- Normalize every quantization mode in the graph to a fixed value;
two graphs with the same `forget_modes` image differ at most in
quantization modes. -/
def forget_modes : CVal → CVal
  | .qparams q => .qparams { q with mode := .TRAINING }
  | .node c as => .node c (forgetArgs as)
  | .seq es => .seq (forgetElems es)
  | v => v

/-- Argument-list companion of `forget_modes`. -/
def forgetArgs : List (String × CVal) → List (String × CVal)
  | [] => []
  | (k, v) :: rest => (k, forget_modes v) :: forgetArgs rest

/-- Sequence companion of `forget_modes`. -/
def forgetElems : List CVal → List CVal
  | [] => []
  | v :: rest => forget_modes v :: forgetElems rest

end

mutual

/-- The full-graph property: every node carrying a quantization
argument — however deeply nested, sequences inside sequences
included — has its mode set to INFERENCE. -/
def quant_modes_inference : CVal → Bool
  | .node _ as =>
      (match lookupArg as "quantization" with
       | some (.qparams q) =>
           match q.mode with
           | .INFERENCE => true
           | _ => false
       | _ => true) && quantModesArgs as
  | .seq es => quantModesElems es
  | _ => true

/-- Argument-list companion of `quant_modes_inference`. -/
def quantModesArgs : List (String × CVal) → Bool
  | [] => true
  | (_, v) :: rest => quant_modes_inference v && quantModesArgs rest

/-- Sequence companion of `quant_modes_inference`. -/
def quantModesElems : List CVal → Bool
  | [] => true
  | v :: rest => quant_modes_inference v && quantModesElems rest

end

/-- Whether a node's own quantization argument, if any, has mode
INFERENCE. -/
def quant_arg_inference (as : List (String × CVal)) : Bool :=
  match lookupArg as "quantization" with
  | some (.qparams q) =>
      match q.mode with
      | .INFERENCE => true
      | _ => false
  | _ => true

mutual

/-- The walk-limited property mirroring the reach of
`set_inference_mode`: every node the one-level-sequence walk visits has
its quantization mode set to INFERENCE; elements of a sequence nested
directly inside another sequence are outside the walk and are not
inspected. -/
def walk_modes_inference : CVal → Bool
  | .node _ as => quant_arg_inference as && walkModesArgs as
  | .seq es => walkModesElems es
  | _ => true

/-- Argument-list companion of `walk_modes_inference`. -/
def walkModesArgs : List (String × CVal) → Bool
  | [] => true
  | (_, v) :: rest => walk_modes_inference v && walkModesArgs rest

/-- The elements of one popped sequence, as inspected by the walk. -/
def walkModesElems : List CVal → Bool
  | [] => true
  | v :: rest => walkModesElem v && walkModesElems rest

/-- One element of a popped sequence: only a config is inspected. -/
def walkModesElem : CVal → Bool
  | .node _ as => quant_arg_inference as && walkModesArgs as
  | _ => true

end

end Praxis

namespace PaxFiddle

/-!
Modelled from the spec: the template config model's `build` operation
(`pax_fiddle.build` / the fiddle build semantics exercised by
`praxis/pax_fiddle_test.py`; the implementation is not part of this
excerpt).  Per the spec, a template graph is a DAG whose nodes may be
referenced from several argument slots; building instantiates
depth-first, yields a fresh, non-shared instance per build call, and
reuses the already-built value for a node revisited during one single
build call.  Following the spec's design note, templates form an arena
of nodes addressed by stable integer identity, and one build call
threads a build cache (template id → built instance) valid only for that
call; Python object identity of built instances is modelled by a
freshly-allocated instance id, with the allocation counter continuing
across build calls so that distinct calls never reuse an identity.
-/

/-- An argument slot of a template node: a primitive or a reference to a
template node of the arena. -/
inductive TArg where
  | prim (n : Int)
  | ref (id : Nat)
deriving DecidableEq, Repr

/-- A template node: a target class tag plus named argument slots. -/
structure TplNode where
  cls : String
  args : List (String × TArg)
deriving DecidableEq, Repr

/-- A template arena: template node ids mapped to nodes. -/
def Graph := List (Nat × TplNode)

/-- Arena lookup. -/
def Graph.find : Graph → Nat → Option TplNode
  | [], _ => none
  | (i, n) :: rest, id =>
      if i = id then some n else Graph.find rest id

/-- A built instance value: a primitive, or an object carrying its
identity (instance id), class tag, and built fields. -/
inductive IVal where
  | prim (n : Int)
  | obj (iid : Nat) (cls : String) (fields : List (String × IVal))

/-- The build cache of one build call: template node id → built value. -/
def Cache := List (Nat × IVal)

/-- Cache lookup. -/
def Cache.find : Cache → Nat → Option IVal
  | [], _ => none
  | (i, v) :: rest, id =>
      if i = id then some v else Cache.find rest id

mutual

/-- Modelled from the spec: build one template node.  On a cache hit the
already-built value of this call is reused; otherwise the argument slots
are built depth-first left to right, a fresh instance id is allocated,
and the result is recorded in the cache.  Fuel bounds the recursion
(enough fuel always exists for a finite DAG); `none` means the fuel ran
out or a dangling reference was hit. -/
def buildNode (g : Graph) : Nat → Nat → Cache → Nat →
    Option (IVal × Cache × Nat)
  | 0, _, _, _ => none
  | fuel + 1, id, cache, ctr =>
      match Cache.find cache id with
      | some v => some (v, cache, ctr)
      | none =>
          match Graph.find g id with
          | none => none
          | some tn =>
              match buildArgs g fuel tn.args cache ctr with
              | none => none
              | some (fields, cache', ctr') =>
                  let v := IVal.obj ctr' tn.cls fields
                  some (v, (id, v) :: cache', ctr' + 1)

/-- Build the argument slots of a node left to right, threading the
cache and the allocation counter (fuel is spent at every step so the
recursion is structural; enough fuel always exists). -/
def buildArgs (g : Graph) : Nat → List (String × TArg) → Cache → Nat →
    Option (List (String × IVal) × Cache × Nat)
  | _, [], cache, ctr => some ([], cache, ctr)
  | 0, _ :: _, _, _ => none
  | fuel + 1, (k, TArg.prim n) :: rest, cache, ctr =>
      match buildArgs g fuel rest cache ctr with
      | none => none
      | some (fs, c, m) => some ((k, IVal.prim n) :: fs, c, m)
  | fuel + 1, (k, TArg.ref j) :: rest, cache, ctr =>
      match buildNode g fuel j cache ctr with
      | none => none
      | some (v, c, m) =>
          match buildArgs g fuel rest c m with
          | none => none
          | some (fs, c2, m2) => some ((k, v) :: fs, c2, m2)

end

mutual

/-- All instance ids occurring in a built value, the nested ones
included. -/
def idsOf : IVal → List Nat
  | .prim _ => []
  | .obj iid _ fields => iid :: idsOfFields fields

/-- Field-list companion of `idsOf`. -/
def idsOfFields : List (String × IVal) → List Nat
  | [] => []
  | (_, v) :: rest => idsOf v ++ idsOfFields rest

end

mutual

/-- Erase instance identities, keeping the value structure: two built
values with the same erasure are equal by value. -/
def eraseIds : IVal → IVal
  | .prim n => .prim n
  | .obj _ cls fields => .obj 0 cls (eraseIdsFields fields)

/-- Field-list companion of `eraseIds`. -/
def eraseIdsFields : List (String × IVal) → List (String × IVal)
  | [] => []
  | (k, v) :: rest => (k, eraseIds v) :: eraseIdsFields rest

end

/-- Erase the identities stored in a build cache. -/
def eraseCache (c : Cache) : Cache :=
  c.map (fun p => (p.1, eraseIds p.2))

/-- All instance ids stored in a build cache. -/
def cacheIds : Cache → List Nat
  | [] => []
  | (_, v) :: rest => idsOf v ++ cacheIds rest

/-- Ids of the field list of a built object. -/
theorem idsOfFields_cons (k : String) (v : IVal)
    (rest : List (String × IVal)) :
    idsOfFields ((k, v) :: rest) = idsOf v ++ idsOfFields rest := rfl

theorem cache_find_ids (c : Cache) (id : Nat) (v : IVal)
    (h : Cache.find c id = some v) : ∀ i ∈ idsOf v, i ∈ cacheIds c := by
  induction c with
  | nil => exact absurd h (by rw [Cache.find]; simp)
  | cons hd rest ih =>
      obtain ⟨j, w⟩ := hd
      rw [Cache.find] at h
      by_cases hj : j = id
      · rw [if_pos hj] at h
        injection h with h
        subst h
        intro i hi
        rw [cacheIds]
        exact List.mem_append.mpr (Or.inl hi)
      · rw [if_neg hj] at h
        intro i hi
        rw [cacheIds]
        exact List.mem_append.mpr (Or.inr (ih h i hi))

mutual

/-- Every instance id in the output of `buildNode` (value and cache)
lies in `[lo, ctr')`, provided the input cache's ids lie in
`[lo, ctr)`: a build call only hands out identities allocated at or
after its starting counter. -/
theorem buildNode_bound (g : Graph) : (fuel : Nat) → ∀ (id : Nat)
    (cache : Cache) (ctr lo : Nat) (v : IVal) (cache' : Cache)
    (ctr' : Nat),
    buildNode g fuel id cache ctr = some (v, cache', ctr') →
    (∀ i ∈ cacheIds cache, lo ≤ i ∧ i < ctr) → lo ≤ ctr →
    ctr ≤ ctr' ∧ (∀ i ∈ idsOf v, lo ≤ i ∧ i < ctr') ∧
      (∀ i ∈ cacheIds cache', lo ≤ i ∧ i < ctr')
  | 0 => by
      intro id cache ctr lo v cache' ctr' h _ _
      rw [buildNode] at h
      exact Option.noConfusion h
  | fuel + 1 => by
      intro id cache ctr lo v cache' ctr' h hcache hlo
      rw [buildNode] at h
      cases hC : Cache.find cache id with
      | some w =>
          rw [hC] at h
          injection h with h
          injection h with hv h
          injection h with hcc hctr
          subst hv
          subst hcc
          subst hctr
          exact ⟨le_refl _,
            fun i hi => hcache i (cache_find_ids _ _ _ hC i hi), hcache⟩
      | none =>
          cases hG : Graph.find g id with
          | none =>
              rw [hC, hG] at h
              simp at h
          | some tn =>
              rw [hC, hG] at h
              simp only [Option.some.injEq] at h
              cases hB : buildArgs g fuel tn.args cache ctr with
              | none =>
                  rw [hB] at h
                  simp at h
              | some out =>
                  obtain ⟨fields, cache1, ctr1⟩ := out
                  rw [hB] at h
                  injection h with h
                  injection h with hv h
                  injection h with hcc hctr
                  obtain ⟨hm, hfids, hcids⟩ := buildArgs_bound g fuel
                    tn.args cache ctr lo fields cache1 ctr1 hB hcache hlo
                  subst hv
                  subst hcc
                  subst hctr
                  refine ⟨le_trans hm (Nat.le_succ _), ?_, ?_⟩
                  · intro i hi
                    rw [idsOf] at hi
                    rcases List.mem_cons.mp hi with hi | hi
                    · subst hi
                      exact ⟨le_trans hlo hm, Nat.lt_succ_self _⟩
                    · obtain ⟨h1, h2⟩ := hfids i hi
                      exact ⟨h1, Nat.lt_succ_of_lt h2⟩
                  · intro i hi
                    rw [cacheIds] at hi
                    rcases List.mem_append.mp hi with hi | hi
                    · rw [idsOf] at hi
                      rcases List.mem_cons.mp hi with hi | hi
                      · subst hi
                        exact ⟨le_trans hlo hm, Nat.lt_succ_self _⟩
                      · obtain ⟨h1, h2⟩ := hfids i hi
                        exact ⟨h1, Nat.lt_succ_of_lt h2⟩
                    · obtain ⟨h1, h2⟩ := hcids i hi
                      exact ⟨h1, Nat.lt_succ_of_lt h2⟩

/-- Field-list companion of `buildNode_bound`. -/
theorem buildArgs_bound (g : Graph) : (fuel : Nat) →
    ∀ (args : List (String × TArg)) (cache : Cache) (ctr lo : Nat)
    (fields : List (String × IVal)) (cache' : Cache) (ctr' : Nat),
    buildArgs g fuel args cache ctr = some (fields, cache', ctr') →
    (∀ i ∈ cacheIds cache, lo ≤ i ∧ i < ctr) → lo ≤ ctr →
    ctr ≤ ctr' ∧ (∀ i ∈ idsOfFields fields, lo ≤ i ∧ i < ctr') ∧
      (∀ i ∈ cacheIds cache', lo ≤ i ∧ i < ctr')
  | 0 => by
      intro args cache ctr lo fields cache' ctr' h hcache hlo
      cases args with
      | nil =>
          rw [buildArgs] at h
          injection h with h
          injection h with hf h
          injection h with hcc hctr
          subst hf
          subst hcc
          subst hctr
          refine ⟨le_refl _, ?_, hcache⟩
          intro i hi
          rw [idsOfFields] at hi
          simp at hi
      | cons a rest =>
          rw [buildArgs] at h
          exact Option.noConfusion h
  | fuel + 1 => by
      intro args cache ctr lo fields cache' ctr' h hcache hlo
      cases args with
      | nil =>
          rw [buildArgs] at h
          injection h with h
          injection h with hf h
          injection h with hcc hctr
          subst hf
          subst hcc
          subst hctr
          refine ⟨le_refl _, ?_, hcache⟩
          intro i hi
          rw [idsOfFields] at hi
          simp at hi
      | cons a rest =>
          obtain ⟨k, ta⟩ := a
          cases ta with
          | prim n =>
              rw [buildArgs] at h
              cases hR : buildArgs g fuel rest cache ctr with
              | none =>
                  rw [hR] at h
                  exact Option.noConfusion h
              | some out =>
                  obtain ⟨fs, c1, m1⟩ := out
                  rw [hR] at h
                  injection h with h
                  injection h with hf h
                  injection h with hcc hctr
                  obtain ⟨hm, hfids, hcids⟩ := buildArgs_bound g fuel rest
                    cache ctr lo fs c1 m1 hR hcache hlo
                  subst hf
                  subst hcc
                  subst hctr
                  refine ⟨hm, ?_, hcids⟩
                  intro i hi
                  rw [idsOfFields_cons] at hi
                  rcases List.mem_append.mp hi with hi | hi
                  · cases hi
                  · exact hfids i hi
          | ref j =>
              rw [buildArgs] at h
              cases hN : buildNode g fuel j cache ctr with
              | none =>
                  rw [hN] at h
                  exact Option.noConfusion h
              | some out =>
                  obtain ⟨v1, c1, m1⟩ := out
                  obtain ⟨hm1, hvids, hc1ids⟩ := buildNode_bound g fuel j
                    cache ctr lo v1 c1 m1 hN hcache hlo
                  rw [hN] at h
                  simp only [Option.some.injEq] at h
                  cases hR : buildArgs g fuel rest c1 m1 with
                  | none =>
                      rw [hR] at h
                      exact Option.noConfusion h
                  | some out2 =>
                      obtain ⟨fs, c2, m2⟩ := out2
                      rw [hR] at h
                      injection h with h
                      injection h with hf h
                      injection h with hcc hctr
                      obtain ⟨hm2, hfids, hc2ids⟩ := buildArgs_bound g fuel
                        rest c1 m1 lo fs c2 m2 hR hc1ids
                        (le_trans hlo hm1)
                      subst hf
                      subst hcc
                      subst hctr
                      refine ⟨le_trans hm1 hm2, ?_, hc2ids⟩
                      intro i hi
                      rw [idsOfFields_cons] at hi
                      rcases List.mem_append.mp hi with hi | hi
                      · obtain ⟨h1, h2⟩ := hvids i hi
                        exact ⟨h1, lt_of_lt_of_le h2 hm2⟩
                      · exact hfids i hi

end

theorem cache_find_erase (c1 : Cache) : ∀ (c2 : Cache),
    eraseCache c1 = eraseCache c2 → ∀ id : Nat,
    Option.map eraseIds (Cache.find c1 id) =
      Option.map eraseIds (Cache.find c2 id) := by
  induction c1 with
  | nil =>
      intro c2 h id
      cases c2 with
      | nil => rfl
      | cons hd2 rest2 => exact absurd h (by simp [eraseCache])
  | cons hd rest ih =>
      intro c2 h id
      cases c2 with
      | nil => exact absurd h (by simp [eraseCache])
      | cons hd2 rest2 =>
          obtain ⟨i, w⟩ := hd
          obtain ⟨i2, w2⟩ := hd2
          simp only [eraseCache, List.map_cons] at h
          injection h with h1 h2
          injection h1 with hi hw
          subst hi
          rw [Cache.find, Cache.find]
          by_cases hid : i = id
          · rw [if_pos hid, if_pos hid]
            simpa using hw
          · rw [if_neg hid, if_neg hid]
            exact ih rest2 h2 id

mutual

/-- Two builds of the same template node from erase-equal caches (at
arbitrary counters) succeed together and produce value-equal results:
object identity is the only difference between two builds. -/
theorem buildNode_erase (g : Graph) : (fuel : Nat) → ∀ (id : Nat)
    (c1 c2 : Cache) (ctr1 ctr2 : Nat) (v1 : IVal) (c1' : Cache)
    (n1 : Nat),
    buildNode g fuel id c1 ctr1 = some (v1, c1', n1) →
    eraseCache c1 = eraseCache c2 →
    ∃ v2 c2' n2, buildNode g fuel id c2 ctr2 = some (v2, c2', n2) ∧
      eraseIds v1 = eraseIds v2 ∧ eraseCache c1' = eraseCache c2'
  | 0 => by
      intro id c1 c2 ctr1 ctr2 v1 c1' n1 h _
      rw [buildNode] at h
      exact Option.noConfusion h
  | fuel + 1 => by
      intro id c1 c2 ctr1 ctr2 v1 c1' n1 h hcc
      rw [buildNode] at h
      rw [buildNode]
      have hfind := cache_find_erase c1 c2 hcc id
      cases hC1 : Cache.find c1 id with
      | some w1 =>
          rw [hC1] at h hfind
          cases hC2 : Cache.find c2 id with
          | none =>
              rw [hC2] at hfind
              exact absurd hfind (by simp)
          | some w2 =>
              rw [hC2] at hfind
              simp at hfind
              injection h with h
              injection h with hv h
              injection h with hcc1 hn1
              subst hv
              subst hcc1
              subst hn1
              exact ⟨w2, c2, ctr2, rfl, hfind, hcc⟩
      | none =>
          rw [hC1] at h hfind
          cases hC2 : Cache.find c2 id with
          | some w2 =>
              rw [hC2] at hfind
              exact absurd hfind (by simp)
          | none =>
              cases hG : Graph.find g id with
              | none =>
                  rw [hG] at h
                  exact Option.noConfusion h
              | some tn =>
                  rw [hG] at h
                  simp only [Option.some.injEq] at h
                  simp only [Option.some.injEq]
                  cases hB1 : buildArgs g fuel tn.args c1 ctr1 with
                  | none =>
                      rw [hB1] at h
                      exact Option.noConfusion h
                  | some out1 =>
                      obtain ⟨f1, c1a, m1⟩ := out1
                      rw [hB1] at h
                      injection h with h
                      injection h with hv h
                      injection h with hcc1 hn1
                      subst hv
                      subst hcc1
                      subst hn1
                      obtain ⟨f2, c2a, m2, hB2, hferase, hcerase⟩ :=
                        buildArgs_erase g fuel tn.args c1 c2 ctr1 ctr2 f1
                          c1a m1 hB1 hcc
                      rw [hB2]
                      refine ⟨IVal.obj m2 tn.cls f2,
                        (id, IVal.obj m2 tn.cls f2) :: c2a, m2 + 1, rfl,
                        ?_, ?_⟩
                      · rw [eraseIds, eraseIds, hferase]
                      · simp only [eraseCache, List.map_cons]
                        rw [eraseIds, eraseIds, hferase]
                        have : List.map
                            (fun p => (p.1, eraseIds p.2)) c1a =
                            List.map (fun p => (p.1, eraseIds p.2)) c2a :=
                          hcerase
                        rw [this]

/-- Field-list companion of `buildNode_erase`. -/
theorem buildArgs_erase (g : Graph) : (fuel : Nat) →
    ∀ (args : List (String × TArg)) (c1 c2 : Cache) (ctr1 ctr2 : Nat)
    (fields1 : List (String × IVal)) (c1' : Cache) (n1 : Nat),
    buildArgs g fuel args c1 ctr1 = some (fields1, c1', n1) →
    eraseCache c1 = eraseCache c2 →
    ∃ fields2 c2' n2,
      buildArgs g fuel args c2 ctr2 = some (fields2, c2', n2) ∧
      eraseIdsFields fields1 = eraseIdsFields fields2 ∧
      eraseCache c1' = eraseCache c2'
  | 0 => by
      intro args c1 c2 ctr1 ctr2 fields1 c1' n1 h hcc
      cases args with
      | nil =>
          rw [buildArgs] at h
          rw [buildArgs]
          injection h with h
          injection h with hf h
          injection h with hc hn
          subst hf
          subst hc
          subst hn
          exact ⟨[], c2, ctr2, rfl, rfl, hcc⟩
      | cons a rest =>
          rw [buildArgs] at h
          exact Option.noConfusion h
  | fuel + 1 => by
      intro args c1 c2 ctr1 ctr2 fields1 c1' n1 h hcc
      cases args with
      | nil =>
          rw [buildArgs] at h
          rw [buildArgs]
          injection h with h
          injection h with hf h
          injection h with hc hn
          subst hf
          subst hc
          subst hn
          exact ⟨[], c2, ctr2, rfl, rfl, hcc⟩
      | cons a rest =>
          obtain ⟨k, ta⟩ := a
          cases ta with
          | prim n =>
              rw [buildArgs] at h
              rw [buildArgs]
              cases hR1 : buildArgs g fuel rest c1 ctr1 with
              | none =>
                  rw [hR1] at h
                  exact Option.noConfusion h
              | some out1 =>
                  obtain ⟨fs1, c1a, m1⟩ := out1
                  rw [hR1] at h
                  injection h with h
                  injection h with hf h
                  injection h with hc hn
                  subst hf
                  subst hc
                  subst hn
                  obtain ⟨fs2, c2a, m2, hR2, hferase, hcerase⟩ :=
                    buildArgs_erase g fuel rest c1 c2 ctr1 ctr2 fs1 c1a m1
                      hR1 hcc
                  rw [hR2]
                  refine ⟨(k, IVal.prim n) :: fs2, c2a, m2, rfl, ?_,
                    hcerase⟩
                  rw [eraseIdsFields, eraseIdsFields, hferase]
          | ref j =>
              rw [buildArgs] at h
              rw [buildArgs]
              cases hN1 : buildNode g fuel j c1 ctr1 with
              | none =>
                  rw [hN1] at h
                  exact Option.noConfusion h
              | some out1 =>
                  obtain ⟨v1, c1a, m1⟩ := out1
                  rw [hN1] at h
                  simp only [Option.some.injEq] at h
                  obtain ⟨v2, c2a, m2, hN2, hverase, hcerase⟩ :=
                    buildNode_erase g fuel j c1 c2 ctr1 ctr2 v1 c1a m1 hN1
                      hcc
                  rw [hN2]
                  simp only [Option.some.injEq]
                  cases hR1 : buildArgs g fuel rest c1a m1 with
                  | none =>
                      rw [hR1] at h
                      exact Option.noConfusion h
                  | some out2 =>
                      obtain ⟨fs1, c1b, m1b⟩ := out2
                      rw [hR1] at h
                      injection h with h
                      injection h with hf h
                      injection h with hc hn
                      subst hf
                      subst hc
                      subst hn
                      obtain ⟨fs2, c2b, m2b, hR2, hferase, hcerase2⟩ :=
                        buildArgs_erase g fuel rest c1a c2a m1 m2 fs1 c1b
                          m1b hR1 hcerase
                      rw [hR2]
                      refine ⟨(k, v2) :: fs2, c2b, m2b, rfl, ?_, hcerase2⟩
                      rw [eraseIdsFields, eraseIdsFields, hverase, hferase]

end

/-- A template arena with one `Person` node referenced from two argument
slots of one `Vehicle` node (the shared-owner shape of the tests). -/
def demo_graph : Graph :=
  [(0, ⟨"Person", []⟩),
   (1, ⟨"Vehicle", [("a", TArg.ref 0), ("b", TArg.ref 0)]⟩)]

/-- The instance built from `demo_graph`: both argument slots hold the
same instance (identity 0). -/
def demo_vehicle : IVal :=
  .obj 1 "Vehicle" [("a", .obj 0 "Person" []), ("b", .obj 0 "Person" [])]

/-- C9: building a template graph twice, the second call starting with a
fresh cache and the identity counter where the first ended, succeeds
and yields value-equal results (equal after erasing identities) whose
instance identities are fully disjoint: no instance of the first build,
top-level or nested, is identity-equal to any instance of the second.
Within one single build call, a template node referenced from two
argument slots yields one shared instance, as `demo_graph` shows: both
slots of the built vehicle hold the instance with identity 0. -/
theorem c9_rebuild_value_equal_never_identity_equal :
    (∀ (g : Graph) (id fuel : Nat) (v1 : IVal) (c1 : Cache) (n1 : Nat),
      buildNode g fuel id [] 0 = some (v1, c1, n1) →
      ∃ v2 c2 n2, buildNode g fuel id [] n1 = some (v2, c2, n2) ∧
        eraseIds v1 = eraseIds v2 ∧
        ∀ i ∈ idsOf v1, ∀ j ∈ idsOf v2, i ≠ j) ∧
    buildNode demo_graph 5 1 [] 0 =
      some (demo_vehicle,
        [(1, demo_vehicle), (0, .obj 0 "Person" [])], 2) := by
  constructor
  · intro g id fuel v1 c1 n1 h1
    obtain ⟨v2, c2, n2, h2, herase, _⟩ :=
      buildNode_erase g fuel id [] [] 0 n1 v1 c1 n1 h1 rfl
    refine ⟨v2, c2, n2, h2, herase, ?_⟩
    have hnil : ∀ lo ctr : Nat, ∀ i ∈ cacheIds ([] : Cache),
        lo ≤ i ∧ i < ctr := by
      intro lo ctr i hi
      rw [cacheIds] at hi
      simp at hi
    obtain ⟨_, hb1, _⟩ := buildNode_bound g fuel id [] 0 0 v1 c1 n1 h1
      (hnil 0 0) (le_refl 0)
    obtain ⟨_, hb2, _⟩ := buildNode_bound g fuel id [] n1 n1 v2 c2 n2 h2
      (hnil n1 n1) (le_refl n1)
    intro i hi j hj hij
    obtain ⟨_, hi2⟩ := hb1 i hi
    obtain ⟨hj1, _⟩ := hb2 j hj
    omega
  · rfl

/-- Witness for C9 at the concrete two-slot arena. -/
theorem c9_rebuild_value_equal_never_identity_equal_witness :
    ∃ v2 c2 n2, buildNode demo_graph 5 1 [] 2 = some (v2, c2, n2) ∧
      eraseIds demo_vehicle = eraseIds v2 ∧
      ∀ i ∈ idsOf demo_vehicle, ∀ j ∈ idsOf v2, i ≠ j :=
  c9_rebuild_value_equal_never_identity_equal.1 demo_graph 1 5
    demo_vehicle [(1, demo_vehicle), (0, .obj 0 "Person" [])] 2 rfl

end PaxFiddle

namespace Praxis

/-! Helper lemmas about argument lookup and assignment. -/

theorem lookupArg_setArgList_same (as : List (String × CVal)) (k : String)
    (v : CVal) : lookupArg (setArgList as k v) k = some v := by
  induction as with
  | nil => simp [setArgList, lookupArg]
  | cons hd tl ih =>
      by_cases h : hd.1 = k
      · simp [setArgList, lookupArg, h]
      · simp [setArgList, lookupArg, h, ih]

theorem lookupArg_setArgList_other (as : List (String × CVal))
    (k k' : String) (v : CVal) (h : k' ≠ k) :
    lookupArg (setArgList as k v) k' = lookupArg as k' := by
  have h' : k ≠ k' := fun hh => h hh.symm
  induction as with
  | nil => simp [setArgList, lookupArg, h']
  | cons hd tl ih =>
      by_cases hh : hd.1 = k
      · simp [setArgList, lookupArg, hh, h']
      · by_cases h2 : hd.1 = k'
        · simp [setArgList, lookupArg, hh, h2, h]
        · simp [setArgList, lookupArg, hh, h2, ih]

theorem getArg_setArg_same (cls : ClassInfo) (as : List (String × CVal))
    (k : String) (v : CVal) :
    (CVal.setArg (.node cls as) k v).getArg k = some v := by
  simp [CVal.setArg, CVal.getArg, lookupArg_setArgList_same]

theorem getArg_setArg_other (cls : ClassInfo) (as : List (String × CVal))
    (k k' : String) (v : CVal) (h : k' ≠ k) :
    (CVal.setArg (.node cls as) k v).getArg k' =
      (CVal.node cls as).getArg k' := by
  simp [CVal.setArg, CVal.getArg, lookupArg_setArgList_other _ _ _ _ h]

/-- The fresh quantized linear template installed by
`quantize_transformer_feed_forward_layer_weights`. -/
def quantized_linear_tpl (qt : QuantizationType) (mode : QuantizationMode)
    (wp : WeightQuantizationParams) (ap : Option ActQuantizationParams)
    (rank : Int) : CVal :=
  .node quantization_Linear
    [("quantization",
      .qparams
        { quantization_type := qt
          mode := mode
          act_params := ap
          weight_params := some wp }),
     ("rank", .prim rank)]

/-- A successful attention rewrite only reassigns the `tr_atten_tpl`
argument of the transformer template. -/
theorem quantize_attention_ok_shape (trCls : ClassInfo)
    (trArgs : List (String × CVal)) (qt : QuantizationType)
    (mode : QuantizationMode) (wp : WeightQuantizationParams)
    (ap : Option ActQuantizationParams)
    (h : (quantize_attention_layer_weights (.node trCls trArgs) qt mode wp
      ap).2 = none) :
    ∃ a', (quantize_attention_layer_weights (.node trCls trArgs) qt mode wp
      ap).1 = .node trCls (setArgList trArgs "tr_atten_tpl" a') := by
  unfold quantize_attention_layer_weights at h ⊢
  simp only [CVal.getArg] at h ⊢
  cases hA : lookupArg trArgs "tr_atten_tpl" with
  | none => rw [hA] at h; simp at h
  | some v =>
      rw [hA] at h
      cases v with
      | node attenCls attenArgs =>
          by_cases h1 : isSubclassOf attenCls layers_DotProductAttention
          · simp [h1, CVal.setArg]
          · by_cases h2 :
              strHasSub attenCls.name "MultiQueryDotProductAttention"
            · simp [h1, h2, CVal.setArg]
            · simp [h1, h2] at h
      | prim n => simp at h
      | pynone => simp at h
      | qparams q => simp at h
      | seq es => simp at h

/-- C1: for every transformer template carrying the expected
feed-forward structure, `quantize_transformer_layer_weights` replaces
the feed-forward linear sub-template by the quantized linear class
regardless of `linear_only`; with `linear_only = true` the attention
sub-template is left unchanged, and with `linear_only = false` (and a
supported attention family, without which the call raises instead) the
attention sub-template is rewritten exactly as by
`quantize_attention_layer_weights`. -/
theorem c1_feed_forward_always_quantized (trCls ffCls flCls : ClassInfo)
    (trArgs ffArgs flArgs : List (String × CVal))
    (qt : QuantizationType) (mode : QuantizationMode)
    (wp : WeightQuantizationParams) (ap : Option ActQuantizationParams)
    (rank : Int)
    (hff : lookupArg trArgs "tr_fflayer_tpl" = some (.node ffCls ffArgs))
    (hfl : lookupArg ffArgs "fflayer_tpl" = some (.node flCls flArgs)) :
    (∀ tr' e,
      quantize_transformer_layer_weights (.node trCls trArgs) qt mode wp ap
        true rank = (tr', e) →
      e = none ∧
      tr'.getArg "tr_atten_tpl" = lookupArg trArgs "tr_atten_tpl" ∧
      ∃ ff' fl', tr'.getArg "tr_fflayer_tpl" = some ff' ∧
        ff'.getArg "fflayer_tpl" = some fl' ∧
        fl'.getArg "linear_tpl" =
          some (quantized_linear_tpl qt mode wp ap rank)) ∧
    (∀ tr' e,
      (quantize_attention_layer_weights (.node trCls trArgs) qt mode wp
        ap).2 = none →
      quantize_transformer_layer_weights (.node trCls trArgs) qt mode wp ap
        false rank = (tr', e) →
      e = none ∧
      tr'.getArg "tr_atten_tpl" =
        ((quantize_attention_layer_weights (.node trCls trArgs) qt mode wp
          ap).1).getArg "tr_atten_tpl" ∧
      ∃ ff' fl', tr'.getArg "tr_fflayer_tpl" = some ff' ∧
        ff'.getArg "fflayer_tpl" = some fl' ∧
        fl'.getArg "linear_tpl" =
          some (quantized_linear_tpl qt mode wp ap rank)) := by
  have hne : ("tr_atten_tpl" : String) ≠ "tr_fflayer_tpl" := by decide
  constructor
  · intro tr' e hrun
    have hcomp : quantize_transformer_layer_weights (.node trCls trArgs) qt
        mode wp ap true rank =
        (CVal.setArg (.node trCls trArgs) "tr_fflayer_tpl"
          ((CVal.node ffCls ffArgs).setArg "fflayer_tpl"
            ((CVal.node flCls flArgs).setArg "linear_tpl"
              (quantized_linear_tpl qt mode wp ap rank))), none) := by
      rw [quantize_transformer_layer_weights]
      simp [CVal.getArg, hff, hfl,
        quantize_transformer_feed_forward_layer_weights, quantized_linear_tpl]
    rw [hcomp] at hrun
    injection hrun with h1 h2
    subst h1
    refine ⟨h2.symm, ?_, ?_⟩
    · rw [getArg_setArg_other _ _ _ _ _ hne]
      simp [CVal.getArg]
    · exact ⟨_, _, getArg_setArg_same .., getArg_setArg_same ..,
        getArg_setArg_same ..⟩
  · intro tr' e hAtt hrun
    obtain ⟨a', hshape⟩ := quantize_attention_ok_shape trCls trArgs qt mode
      wp ap hAtt
    have hqa : quantize_attention_layer_weights (.node trCls trArgs) qt mode
        wp ap = (.node trCls (setArgList trArgs "tr_atten_tpl" a'), none) := by
      conv_lhs => rw [← Prod.mk.eta (p :=
        quantize_attention_layer_weights (.node trCls trArgs) qt mode wp ap)]
      rw [hshape, hAtt]
    have hff1 : lookupArg (setArgList trArgs "tr_atten_tpl" a')
        "tr_fflayer_tpl" = some (.node ffCls ffArgs) := by
      rw [lookupArg_setArgList_other _ _ _ _ (Ne.symm hne)]
      exact hff
    have hcomp : quantize_transformer_layer_weights (.node trCls trArgs) qt
        mode wp ap false rank =
        (CVal.setArg (.node trCls (setArgList trArgs "tr_atten_tpl" a'))
          "tr_fflayer_tpl"
          ((CVal.node ffCls ffArgs).setArg "fflayer_tpl"
            ((CVal.node flCls flArgs).setArg "linear_tpl"
              (quantized_linear_tpl qt mode wp ap rank))), none) := by
      rw [quantize_transformer_layer_weights]
      simp [hqa, CVal.getArg, hff1, hfl,
        quantize_transformer_feed_forward_layer_weights, quantized_linear_tpl]
    rw [hcomp] at hrun
    injection hrun with h1 h2
    subst h1
    refine ⟨h2.symm, ?_, ?_⟩
    · rw [getArg_setArg_other _ _ _ _ _ hne, hshape]
    · exact ⟨_, _, getArg_setArg_same .., getArg_setArg_same ..,
        getArg_setArg_same ..⟩

/-! Demonstration templates used to instantiate the hypotheses of the
claim theorems on concrete inputs. -/

/-- The `FeedForward` layer class nested under a transformer
feed-forward template. -/
def layers_FeedForward : ClassInfo :=
  ⟨"FeedForward", "layers.linears.FeedForward",
   ["layers.linears.FeedForward", baseLayerQual]⟩

/-- A concrete weight-parameter value. -/
def demo_wp : WeightQuantizationParams :=
  { precision := 8, use_symmetric := true, dtype := JnpDType.int8 }

/-- Concrete attention-template arguments. -/
def demo_atten_args : List (String × CVal) := [("num_heads", .prim 4)]

/-- Concrete transformer-template arguments with the dot-product
attention family and the nested feed-forward structure. -/
def demo_tr_args : List (String × CVal) :=
  [("tr_atten_tpl", .node layers_DotProductAttention demo_atten_args),
   ("tr_fflayer_tpl", .node layers_TransformerFeedForward
      [("fflayer_tpl", .node layers_FeedForward
         [("linear_tpl", .prim 0)])])]

/-- Witness for C1 at a concrete transformer template. -/
theorem c1_feed_forward_always_quantized_witness :
    (∀ tr' e,
      quantize_transformer_layer_weights (.node layers_Transformer
        demo_tr_args) .PTQ .INFERENCE demo_wp none true (-1) = (tr', e) →
      e = none ∧
      tr'.getArg "tr_atten_tpl" = lookupArg demo_tr_args "tr_atten_tpl" ∧
      ∃ ff' fl', tr'.getArg "tr_fflayer_tpl" = some ff' ∧
        ff'.getArg "fflayer_tpl" = some fl' ∧
        fl'.getArg "linear_tpl" =
          some (quantized_linear_tpl .PTQ .INFERENCE demo_wp none (-1))) ∧
    (∀ tr' e,
      (quantize_attention_layer_weights (.node layers_Transformer
        demo_tr_args) .PTQ .INFERENCE demo_wp none).2 = none →
      quantize_transformer_layer_weights (.node layers_Transformer
        demo_tr_args) .PTQ .INFERENCE demo_wp none false (-1) = (tr', e) →
      e = none ∧
      tr'.getArg "tr_atten_tpl" =
        ((quantize_attention_layer_weights (.node layers_Transformer
          demo_tr_args) .PTQ .INFERENCE demo_wp none).1).getArg
          "tr_atten_tpl" ∧
      ∃ ff' fl', tr'.getArg "tr_fflayer_tpl" = some ff' ∧
        ff'.getArg "fflayer_tpl" = some fl' ∧
        fl'.getArg "linear_tpl" =
          some (quantized_linear_tpl .PTQ .INFERENCE demo_wp none (-1))) :=
  c1_feed_forward_always_quantized layers_Transformer
    layers_TransformerFeedForward layers_FeedForward demo_tr_args
    [("fflayer_tpl", .node layers_FeedForward [("linear_tpl", .prim 0)])]
    [("linear_tpl", .prim 0)] .PTQ .INFERENCE demo_wp none (-1) rfl rfl

/-- The class installed at argument `k` of template `v`, if any. -/
def arg_cls (v : CVal) (k : String) : Option ClassInfo :=
  (v.getArg k).bind CVal.cls?

/-- C2: `quantize_attention_layer_weights` dispatches on the attention
sub-template's class.  The dot-product-attention family (by subclass
test) gets the quantized attention projection and combined-QKV
projection templates; the multi-query family (by class-name substring
match, tested after the subclass test) gets the quantized attention
projection and one-headed projection templates; any other class raises a
`ValueError` naming the class found, leaving the template unchanged. -/
theorem c2_attention_family_dispatch (trCls aCls : ClassInfo)
    (trArgs aArgs : List (String × CVal)) (qt : QuantizationType)
    (mode : QuantizationMode) (wp : WeightQuantizationParams)
    (ap : Option ActQuantizationParams)
    (hA : lookupArg trArgs "tr_atten_tpl" = some (.node aCls aArgs)) :
    (isSubclassOf aCls layers_DotProductAttention = true →
      quantize_attention_layer_weights (.node trCls trArgs) qt mode wp ap =
        ((CVal.node trCls trArgs).setArg "tr_atten_tpl"
          (quantize_dot_product_attention_layer_weights (.node aCls aArgs)
            qt mode wp ap), none) ∧
      arg_cls (quantize_dot_product_attention_layer_weights
          (.node aCls aArgs) qt mode wp ap) "proj_tpl" =
        some quantization_AttentionProjection ∧
      arg_cls (quantize_dot_product_attention_layer_weights
          (.node aCls aArgs) qt mode wp ap) "combined_qkv_proj_tpl" =
        some quantization_CombinedQKVProjectionLayer) ∧
    (isSubclassOf aCls layers_DotProductAttention = false →
      strHasSub aCls.name "MultiQueryDotProductAttention" = true →
      quantize_attention_layer_weights (.node trCls trArgs) qt mode wp ap =
        ((CVal.node trCls trArgs).setArg "tr_atten_tpl"
          (quantize_mq_dot_product_attention_layer_weights (.node aCls aArgs)
            qt mode wp ap), none) ∧
      arg_cls (quantize_mq_dot_product_attention_layer_weights
          (.node aCls aArgs) qt mode wp ap) "proj_tpl" =
        some quantization_AttentionProjection ∧
      arg_cls (quantize_mq_dot_product_attention_layer_weights
          (.node aCls aArgs) qt mode wp ap) "headless_proj_tpl" =
        some quantization_OneHeadedAttentionProjection) ∧
    (isSubclassOf aCls layers_DotProductAttention = false →
      strHasSub aCls.name "MultiQueryDotProductAttention" = false →
      quantize_attention_layer_weights (.node trCls trArgs) qt mode wp ap =
        (.node trCls trArgs,
         some (.valueError
           ("tr_tpl.tr_atten_tpl.cls is : " ++ aCls.qualId ++
            "but has to be DotProductAttention or" ++
            " MultiQueryDotProductAttention")))) := by
  have hqkv : ("proj_tpl" : String) ≠ "combined_qkv_proj_tpl" := by decide
  have hhdl : ("proj_tpl" : String) ≠ "headless_proj_tpl" := by decide
  refine ⟨?_, ?_, ?_⟩
  · intro h1
    refine ⟨?_, ?_, ?_⟩
    · rw [quantize_attention_layer_weights]
      simp [CVal.getArg, hA, h1]
    · simp [quantize_dot_product_attention_layer_weights, arg_cls,
        CVal.setArg, CVal.getArg, lookupArg_setArgList_other _ _ _ _ hqkv,
        lookupArg_setArgList_same, CVal.cls?]
    · simp [quantize_dot_product_attention_layer_weights, arg_cls,
        CVal.setArg, CVal.getArg, lookupArg_setArgList_same, CVal.cls?]
  · intro h1 h2
    refine ⟨?_, ?_, ?_⟩
    · rw [quantize_attention_layer_weights]
      simp [CVal.getArg, hA, h1, h2]
    · simp [quantize_mq_dot_product_attention_layer_weights, arg_cls,
        CVal.setArg, CVal.getArg, lookupArg_setArgList_other _ _ _ _ hhdl,
        lookupArg_setArgList_same, CVal.cls?]
    · simp [quantize_mq_dot_product_attention_layer_weights, arg_cls,
        CVal.setArg, CVal.getArg, lookupArg_setArgList_same, CVal.cls?]
  · intro h1 h2
    rw [quantize_attention_layer_weights]
    simp [CVal.getArg, hA, h1, h2]

/-- A concrete attention class outside both recognized families. -/
def demo_other_attention : ClassInfo :=
  ⟨"ChunkedCrossAttention", "layers.ChunkedCrossAttention",
   ["layers.ChunkedCrossAttention", baseLayerQual]⟩

/-- Witness for C2 at concrete attention templates: one per family and
one unsupported class. -/
theorem c2_attention_family_dispatch_witness :
    (quantize_attention_layer_weights (.node layers_Transformer
        [("tr_atten_tpl", .node layers_DotProductAttention [])])
        .PTQ .INFERENCE demo_wp none).2 = none ∧
    (quantize_attention_layer_weights (.node layers_Transformer
        [("tr_atten_tpl", .node layers_MultiQueryDotProductAttention [])])
        .PTQ .INFERENCE demo_wp none).2 = none ∧
    quantize_attention_layer_weights (.node layers_Transformer
        [("tr_atten_tpl", .node demo_other_attention [])])
        .PTQ .INFERENCE demo_wp none =
      (.node layers_Transformer
        [("tr_atten_tpl", .node demo_other_attention [])],
       some (.valueError
         ("tr_tpl.tr_atten_tpl.cls is : " ++ demo_other_attention.qualId ++
          "but has to be DotProductAttention or" ++
          " MultiQueryDotProductAttention"))) := by
  refine ⟨?_, ?_, ?_⟩
  · rw [((c2_attention_family_dispatch layers_Transformer
      layers_DotProductAttention
      [("tr_atten_tpl", .node layers_DotProductAttention [])] []
      .PTQ .INFERENCE demo_wp none rfl).1 rfl).1]
  · rw [((c2_attention_family_dispatch layers_Transformer
      layers_MultiQueryDotProductAttention
      [("tr_atten_tpl", .node layers_MultiQueryDotProductAttention [])] []
      .PTQ .INFERENCE demo_wp none rfl).2.1 rfl rfl).1]
  · exact (c2_attention_family_dispatch layers_Transformer
      demo_other_attention
      [("tr_atten_tpl", .node demo_other_attention [])] []
      .PTQ .INFERENCE demo_wp none rfl).2.2 rfl rfl


/-! Lemmas about `copy_args_onto`. -/

theorem lookupArg_none_of_not_mem (as : List (String × CVal)) (k : String)
    (h : k ∉ as.map Prod.fst) : lookupArg as k = none := by
  induction as with
  | nil => rfl
  | cons hd tl ih =>
      simp only [List.map_cons, List.mem_cons] at h
      push_neg at h
      have h1 : ¬hd.1 = k := fun hh => h.1 hh.symm
      simp [lookupArg, h1, ih h.2]

theorem copy_args_lookup_absent (srcArgs : List (String × CVal))
    (tArgs : List (String × CVal)) (k : String)
    (habs : lookupArg srcArgs k = none) :
    lookupArg (copy_args_onto tArgs srcArgs) k = lookupArg tArgs k := by
  induction srcArgs generalizing tArgs with
  | nil => rfl
  | cons hd tl ih =>
      obtain ⟨k0, v0⟩ := hd
      rw [lookupArg] at habs
      by_cases h0 : k0 = k
      · simp [h0] at habs
      · rw [if_neg h0] at habs
        rw [copy_args_onto]
        by_cases hq : k0 = "quantization"
        · rw [if_pos hq, ih _ habs]
        · rw [if_neg hq, ih _ habs,
            lookupArg_setArgList_other _ _ _ _ (fun hh => h0 hh.symm)]

theorem copy_args_lookup_src (srcArgs : List (String × CVal))
    (tArgs : List (String × CVal)) (k : String) (v : CVal)
    (hk : k ≠ "quantization")
    (hnodup : (srcArgs.map Prod.fst).Nodup)
    (hv : lookupArg srcArgs k = some v) :
    lookupArg (copy_args_onto tArgs srcArgs) k = some v := by
  induction srcArgs generalizing tArgs with
  | nil => simp [lookupArg] at hv
  | cons hd tl ih =>
      obtain ⟨k0, v0⟩ := hd
      simp only [List.map_cons, List.nodup_cons] at hnodup
      rw [lookupArg] at hv
      by_cases h0 : k0 = k
      · rw [if_pos h0] at hv
        injection hv with hv
        subst hv h0
        rw [copy_args_onto, if_neg hk]
        have habs : lookupArg tl k0 = none :=
          lookupArg_none_of_not_mem _ _ hnodup.1
        rw [copy_args_lookup_absent _ _ _ habs,
          lookupArg_setArgList_same]
      · rw [if_neg h0] at hv
        rw [copy_args_onto]
        by_cases hq : k0 = "quantization"
        · rw [if_pos hq]
          exact ih _ hnodup.2 hv
        · rw [if_neg hq]
          exact ih _ hnodup.2 hv

theorem copy_args_quantization (srcArgs : List (String × CVal))
    (tArgs : List (String × CVal)) :
    lookupArg (copy_args_onto tArgs srcArgs) "quantization" =
      lookupArg tArgs "quantization" := by
  induction srcArgs generalizing tArgs with
  | nil => rfl
  | cons hd tl ih =>
      obtain ⟨k0, v0⟩ := hd
      rw [copy_args_onto]
      by_cases hq : k0 = "quantization"
      · rw [if_pos hq, ih]
      · rw [if_neg hq, ih,
          lookupArg_setArgList_other _ _ _ _ (fun hh => hq hh.symm)]

/-- C4: requesting embedding/softmax quantization on a language-model
template whose softmax sub-template is not in the shared-embedding
softmax family raises a `ValueError` naming the type found and returns
the template unmodified (the family check precedes every mutation). -/
theorem c4_embedding_softmax_unsupported_unmodified
    (lmCls smCls : ClassInfo) (lmArgs smArgs : List (String × CVal))
    (qt : QuantizationType) (mode : QuantizationMode)
    (wp : WeightQuantizationParams) (tes : Bool)
    (hS : lookupArg lmArgs "softmax_tpl" = some (.node smCls smArgs))
    (hNot : isSubclassOf smCls layers_SharedEmbeddingSoftmax = false) :
    quantize_embedding_softmax_layer_weights (.node lmCls lmArgs) qt mode
      wp tes =
      (.node lmCls lmArgs,
       some (.valueError
         ("lm_tpl.softmax_tpl.cls is : " ++ smCls.qualId ++
          "but has to be layers.SharedEmbeddingSoftmax"))) := by
  rw [quantize_embedding_softmax_layer_weights]
  simp [CVal.getArg, hS, hNot]

/-- A concrete softmax class outside the shared-embedding family. -/
def demo_other_softmax : ClassInfo :=
  ⟨"GShardSharedEmbeddingSoftmax", "layers.GShardSharedEmbeddingSoftmax",
   ["layers.GShardSharedEmbeddingSoftmax", baseLayerQual]⟩

/-- Witness for C4 at a concrete language-model template. -/
theorem c4_embedding_softmax_unsupported_unmodified_witness :
    quantize_embedding_softmax_layer_weights
      (.node layers_TransformerLm
        [("softmax_tpl", .node demo_other_softmax [("num_classes", .prim 7)])])
      .PTQ .INFERENCE demo_wp false =
      (.node layers_TransformerLm
        [("softmax_tpl", .node demo_other_softmax [("num_classes", .prim 7)])],
       some (.valueError
         ("lm_tpl.softmax_tpl.cls is : " ++ demo_other_softmax.qualId ++
          "but has to be layers.SharedEmbeddingSoftmax"))) :=
  c4_embedding_softmax_unsupported_unmodified layers_TransformerLm
    demo_other_softmax
    [("softmax_tpl", .node demo_other_softmax [("num_classes", .prim 7)])]
    [("num_classes", .prim 7)] .PTQ .INFERENCE demo_wp false rfl rfl

/-- C8: ngrammer-embedding quantization is a silent no-op when
`ngrammer_tpl` is None; a plain-ngrammer family template is replaced by
the quantized plain class, a vector-quantized family template by the
distinct quantized VQ class, and any other ngrammer class is silently
skipped without error or modification. -/
theorem c8_ngrammer_optional_dispatch (lmCls : ClassInfo)
    (lmArgs : List (String × CVal)) (qt : QuantizationType)
    (mode : QuantizationMode) (wp : WeightQuantizationParams) :
    (lookupArg lmArgs "ngrammer_tpl" = some .pynone →
      quantize_ngrammer_embedding_weights (.node lmCls lmArgs) qt mode wp =
        (.node lmCls lmArgs, none)) ∧
    (∀ nCls nArgs,
      lookupArg lmArgs "ngrammer_tpl" = some (.node nCls nArgs) →
      (isSubclassOf nCls layers_Ngrammer = true →
        ∃ newArgs,
          quantize_ngrammer_embedding_weights (.node lmCls lmArgs) qt mode
            wp =
          ((CVal.node lmCls lmArgs).setArg "ngrammer_tpl"
            (.node quantization_Ngrammer newArgs), none)) ∧
      (isSubclassOf nCls layers_Ngrammer = false →
        isSubclassOf nCls layers_VQNgrammer = true →
        ∃ newArgs,
          quantize_ngrammer_embedding_weights (.node lmCls lmArgs) qt mode
            wp =
          ((CVal.node lmCls lmArgs).setArg "ngrammer_tpl"
            (.node quantization_VQNgrammer newArgs), none)) ∧
      (isSubclassOf nCls layers_Ngrammer = false →
        isSubclassOf nCls layers_VQNgrammer = false →
        quantize_ngrammer_embedding_weights (.node lmCls lmArgs) qt mode
          wp = (.node lmCls lmArgs, none))) := by
  constructor
  · intro hN
    rw [quantize_ngrammer_embedding_weights]
    simp [CVal.getArg, hN]
  · intro nCls nArgs hN
    refine ⟨?_, ?_, ?_⟩
    · intro h1
      refine ⟨copy_args_onto
        [("quantization",
          .qparams { quantization_type := qt, mode := mode,
                     act_params := none,
                     weight_params := some wp })] nArgs, ?_⟩
      rw [quantize_ngrammer_embedding_weights]
      simp [CVal.getArg, hN, h1, copy_fields_from]
    · intro h1 h2
      refine ⟨copy_args_onto
        [("quantization",
          .qparams { quantization_type := qt, mode := mode,
                     act_params := none,
                     weight_params := some wp })] nArgs, ?_⟩
      rw [quantize_ngrammer_embedding_weights]
      simp [CVal.getArg, hN, h1, h2, copy_fields_from]
    · intro h1 h2
      rw [quantize_ngrammer_embedding_weights]
      simp [CVal.getArg, hN, h1, h2]

/-- A concrete ngrammer class outside both recognized families. -/
def demo_other_ngrammer : ClassInfo :=
  ⟨"BregmanNgrammer", "layers.BregmanNgrammer",
   ["layers.BregmanNgrammer", baseLayerQual]⟩

/-- Witness for C8 at concrete language-model templates covering all
four dispatch outcomes. -/
theorem c8_ngrammer_optional_dispatch_witness :
    quantize_ngrammer_embedding_weights
      (.node layers_TransformerLm [("ngrammer_tpl", .pynone)])
      .PTQ .INFERENCE demo_wp =
      (.node layers_TransformerLm [("ngrammer_tpl", .pynone)], none) ∧
    (∃ newArgs,
      quantize_ngrammer_embedding_weights
        (.node layers_TransformerLm
          [("ngrammer_tpl", .node layers_Ngrammer [])])
        .PTQ .INFERENCE demo_wp =
      ((CVal.node layers_TransformerLm
          [("ngrammer_tpl", .node layers_Ngrammer [])]).setArg
        "ngrammer_tpl" (.node quantization_Ngrammer newArgs), none)) ∧
    (∃ newArgs,
      quantize_ngrammer_embedding_weights
        (.node layers_TransformerLm
          [("ngrammer_tpl", .node layers_VQNgrammer [])])
        .PTQ .INFERENCE demo_wp =
      ((CVal.node layers_TransformerLm
          [("ngrammer_tpl", .node layers_VQNgrammer [])]).setArg
        "ngrammer_tpl" (.node quantization_VQNgrammer newArgs), none)) ∧
    quantize_ngrammer_embedding_weights
      (.node layers_TransformerLm
        [("ngrammer_tpl", .node demo_other_ngrammer [])])
      .PTQ .INFERENCE demo_wp =
      (.node layers_TransformerLm
        [("ngrammer_tpl", .node demo_other_ngrammer [])], none) := by
  refine ⟨?_, ?_, ?_, ?_⟩
  · exact (c8_ngrammer_optional_dispatch layers_TransformerLm
      [("ngrammer_tpl", .pynone)] .PTQ .INFERENCE demo_wp).1 rfl
  · exact ((c8_ngrammer_optional_dispatch layers_TransformerLm
      [("ngrammer_tpl", .node layers_Ngrammer [])] .PTQ .INFERENCE
      demo_wp).2 layers_Ngrammer [] rfl).1 rfl
  · exact ((c8_ngrammer_optional_dispatch layers_TransformerLm
      [("ngrammer_tpl", .node layers_VQNgrammer [])] .PTQ .INFERENCE
      demo_wp).2 layers_VQNgrammer [] rfl).2.1 rfl rfl
  · exact ((c8_ngrammer_optional_dispatch layers_TransformerLm
      [("ngrammer_tpl", .node demo_other_ngrammer [])] .PTQ .INFERENCE
      demo_wp).2 demo_other_ngrammer [] rfl).2.2 rfl rfl


/-- The quantization-parameter value attached to replacement templates. -/
def mk_qparams_val (qt : QuantizationType) (mode : QuantizationMode)
    (ap : Option ActQuantizationParams) (wp : WeightQuantizationParams) :
    CVal :=
  .qparams
    { quantization_type := qt
      mode := mode
      act_params := ap
      weight_params := some wp }

/-- The unquantized attention projection class. -/
def layers_AttentionProjection : ClassInfo :=
  ⟨"AttentionProjection", "layers.attentions.AttentionProjection",
   ["layers.attentions.AttentionProjection", baseLayerQual]⟩

/-- Counterexample to C3: the attention projection substitution does not
copy fields already set on the original child template.  Here the
original `proj_tpl` carries `attention_combine_dims`, and the quantized
replacement installed by
`quantize_dot_product_attention_layer_weights` does not. -/
theorem c3_fields_not_copied_counterexample :
    ((quantize_dot_product_attention_layer_weights
        (.node layers_DotProductAttention
          [("proj_tpl", .node layers_AttentionProjection
            [("attention_combine_dims", .prim 1)])])
        .PTQ .INFERENCE demo_wp none).getArg "proj_tpl").bind
      (fun p => p.getArg "attention_combine_dims") = none ∧
    (((CVal.node layers_DotProductAttention
        [("proj_tpl", .node layers_AttentionProjection
          [("attention_combine_dims", .prim 1)])]).getArg "proj_tpl").bind
      (fun p => p.getArg "attention_combine_dims")) = some (.prim 1) :=
  ⟨rfl, rfl⟩

/-- C3 amended: fields already set on the original child template are
copied (quantization fields excepted) only by the embedding/softmax and
ngrammer-embedding substitutions; the attention projection,
combined-QKV, one-headed projection, feed-forward linear and
convolution substitutions install fresh templates carrying only the
quantization parameters (plus the rank for the linear), discarding the
original child template's fields. -/
theorem c3_field_copying_amended :
    (∀ lmCls smCls lmArgs smArgs qt mode wp tes k v,
      lookupArg lmArgs "softmax_tpl" = some (.node smCls smArgs) →
      isSubclassOf smCls layers_SharedEmbeddingSoftmax = true →
      (smArgs.map Prod.fst).Nodup →
      k ≠ "quantization" →
      lookupArg smArgs k = some v →
      ∃ newTpl,
        (quantize_embedding_softmax_layer_weights (.node lmCls lmArgs) qt
          mode wp tes).1.getArg "softmax_tpl" = some newTpl ∧
        newTpl.getArg k = some v ∧
        newTpl.getArg "quantization" = some (mk_qparams_val qt mode none wp)) ∧
    (∀ lmCls nCls lmArgs nArgs qt mode wp k v,
      lookupArg lmArgs "ngrammer_tpl" = some (.node nCls nArgs) →
      isSubclassOf nCls layers_Ngrammer = true →
      (nArgs.map Prod.fst).Nodup →
      k ≠ "quantization" →
      lookupArg nArgs k = some v →
      ∃ newTpl,
        (quantize_ngrammer_embedding_weights (.node lmCls lmArgs) qt mode
          wp).1.getArg "ngrammer_tpl" = some newTpl ∧
        newTpl.getArg k = some v ∧
        newTpl.getArg "quantization" = some (mk_qparams_val qt mode none wp)) ∧
    (∀ aCls aArgs qt mode wp ap,
      (quantize_dot_product_attention_layer_weights (.node aCls aArgs) qt
        mode wp ap).getArg "proj_tpl" =
        some (.node quantization_AttentionProjection
          [("quantization", mk_qparams_val qt mode ap wp)]) ∧
      (quantize_dot_product_attention_layer_weights (.node aCls aArgs) qt
        mode wp ap).getArg "combined_qkv_proj_tpl" =
        some (.node quantization_CombinedQKVProjectionLayer
          [("quantization", mk_qparams_val qt mode ap wp)])) ∧
    (∀ aCls aArgs qt mode wp ap,
      (quantize_mq_dot_product_attention_layer_weights (.node aCls aArgs)
        qt mode wp ap).getArg "proj_tpl" =
        some (.node quantization_AttentionProjection
          [("quantization", mk_qparams_val qt mode ap wp)]) ∧
      (quantize_mq_dot_product_attention_layer_weights (.node aCls aArgs)
        qt mode wp ap).getArg "headless_proj_tpl" =
        some (.node quantization_OneHeadedAttentionProjection
          [("quantization", mk_qparams_val qt mode ap wp)])) ∧
    (∀ tfCls flCls tfArgs flArgs qt mode wp ap rank,
      lookupArg tfArgs "fflayer_tpl" = some (.node flCls flArgs) →
      ∃ ff',
        quantize_transformer_feed_forward_layer_weights
          (.node tfCls tfArgs) qt mode wp ap rank = (ff', none) ∧
        (ff'.getArg "fflayer_tpl").bind (fun fl => fl.getArg "linear_tpl") =
          some (quantized_linear_tpl qt mode wp ap rank)) ∧
    (∀ dCls dArgs qt mode wp ap w,
      lookupArg dArgs "conv_tpl" = some w →
      (quantize_diffusion_conv_tpl (.node dCls dArgs) qt mode wp
        ap).getArg "conv_tpl" =
        some (.node quantization_Conv2D
          [("quantization", mk_qparams_val qt mode ap wp)])) := by
  have hqkv : ("proj_tpl" : String) ≠ "combined_qkv_proj_tpl" := by decide
  have hhdl : ("proj_tpl" : String) ≠ "headless_proj_tpl" := by decide
  refine ⟨?_, ?_, ?_, ?_, ?_, ?_⟩
  · intro lmCls smCls lmArgs smArgs qt mode wp tes k v hS hFam hnd hk hv
    cases tes with
    | false =>
        refine ⟨.node quantization_SharedEmbeddingSoftmax
          (copy_args_onto [("quantization", mk_qparams_val qt mode none wp)]
            smArgs), ?_, ?_, ?_⟩
        · rw [quantize_embedding_softmax_layer_weights]
          simp [CVal.getArg, hS, hFam, copy_fields_from, CVal.setArg,
            lookupArg_setArgList_same, mk_qparams_val]
        · simp [CVal.getArg, copy_args_lookup_src smArgs _ k v hk hnd hv]
        · simp [CVal.getArg, copy_args_quantization, lookupArg]
    | true =>
        refine ⟨.node quantization_NClassMajorSharedEmbeddingSoftmax
          (copy_args_onto [("quantization", mk_qparams_val qt mode none wp)]
            smArgs), ?_, ?_, ?_⟩
        · rw [quantize_embedding_softmax_layer_weights]
          simp [CVal.getArg, hS, hFam, copy_fields_from, CVal.setArg,
            lookupArg_setArgList_same, mk_qparams_val]
        · simp [CVal.getArg, copy_args_lookup_src smArgs _ k v hk hnd hv]
        · simp [CVal.getArg, copy_args_quantization, lookupArg]
  · intro lmCls nCls lmArgs nArgs qt mode wp k v hN hFam hnd hk hv
    refine ⟨.node quantization_Ngrammer
      (copy_args_onto [("quantization", mk_qparams_val qt mode none wp)]
        nArgs), ?_, ?_, ?_⟩
    · rw [quantize_ngrammer_embedding_weights]
      simp [CVal.getArg, hN, hFam, copy_fields_from, CVal.setArg,
        lookupArg_setArgList_same, mk_qparams_val]
    · simp [CVal.getArg, copy_args_lookup_src nArgs _ k v hk hnd hv]
    · simp [CVal.getArg, copy_args_quantization, lookupArg]
  · intro aCls aArgs qt mode wp ap
    constructor
    · simp [quantize_dot_product_attention_layer_weights, CVal.setArg,
        CVal.getArg, lookupArg_setArgList_other _ _ _ _ hqkv,
        lookupArg_setArgList_same, mk_qparams_val]
    · simp [quantize_dot_product_attention_layer_weights, CVal.setArg,
        CVal.getArg, lookupArg_setArgList_same, mk_qparams_val]
  · intro aCls aArgs qt mode wp ap
    constructor
    · simp [quantize_mq_dot_product_attention_layer_weights, CVal.setArg,
        CVal.getArg, lookupArg_setArgList_other _ _ _ _ hhdl,
        lookupArg_setArgList_same, mk_qparams_val]
    · simp [quantize_mq_dot_product_attention_layer_weights, CVal.setArg,
        CVal.getArg, lookupArg_setArgList_same, mk_qparams_val]
  · intro tfCls flCls tfArgs flArgs qt mode wp ap rank hfl
    refine ⟨(CVal.node tfCls tfArgs).setArg "fflayer_tpl"
      ((CVal.node flCls flArgs).setArg "linear_tpl"
        (quantized_linear_tpl qt mode wp ap rank)), ?_, ?_⟩
    · rw [quantize_transformer_feed_forward_layer_weights]
      simp [CVal.getArg, hfl, quantized_linear_tpl]
    · simp [CVal.setArg, CVal.getArg, lookupArg_setArgList_same,
        quantized_linear_tpl]
  · intro dCls dArgs qt mode wp ap w hconv
    rw [quantize_diffusion_conv_tpl]
    simp [CVal.getArg, hconv, CVal.setArg, lookupArg_setArgList_same,
      mk_qparams_val]


/-- Witness for the amended C3 at concrete templates. -/
theorem c3_field_copying_amended_witness :
    (∃ newTpl,
      (quantize_embedding_softmax_layer_weights
        (.node layers_TransformerLm
          [("softmax_tpl", .node layers_SharedEmbeddingSoftmax
            [("num_classes", .prim 42)])])
        .PTQ .INFERENCE demo_wp false).1.getArg "softmax_tpl" =
          some newTpl ∧
      newTpl.getArg "num_classes" = some (.prim 42) ∧
      newTpl.getArg "quantization" =
        some (mk_qparams_val .PTQ .INFERENCE none demo_wp)) ∧
    (∃ newTpl,
      (quantize_ngrammer_embedding_weights
        (.node layers_TransformerLm
          [("ngrammer_tpl", .node layers_Ngrammer
            [("ngram_vocab_size", .prim 64)])])
        .PTQ .INFERENCE demo_wp).1.getArg "ngrammer_tpl" = some newTpl ∧
      newTpl.getArg "ngram_vocab_size" = some (.prim 64) ∧
      newTpl.getArg "quantization" =
        some (mk_qparams_val .PTQ .INFERENCE none demo_wp)) ∧
    (∃ ff',
      quantize_transformer_feed_forward_layer_weights
        (.node layers_TransformerFeedForward
          [("fflayer_tpl", .node layers_FeedForward
            [("linear_tpl", .prim 0)])])
        .PTQ .INFERENCE demo_wp none (-1) = (ff', none) ∧
      (ff'.getArg "fflayer_tpl").bind (fun fl => fl.getArg "linear_tpl") =
        some (quantized_linear_tpl .PTQ .INFERENCE demo_wp none (-1))) ∧
    (quantize_diffusion_conv_tpl
      (.node layers_Transformer [("conv_tpl", .prim 0)])
      .PTQ .INFERENCE demo_wp none).getArg "conv_tpl" =
      some (.node quantization_Conv2D
        [("quantization", mk_qparams_val .PTQ .INFERENCE none demo_wp)]) := by
  refine ⟨?_, ?_, ?_, ?_⟩
  · exact c3_field_copying_amended.1 layers_TransformerLm
      layers_SharedEmbeddingSoftmax
      [("softmax_tpl", .node layers_SharedEmbeddingSoftmax
        [("num_classes", .prim 42)])]
      [("num_classes", .prim 42)] .PTQ .INFERENCE demo_wp false
      "num_classes" (.prim 42) rfl rfl (by decide) (by decide) rfl
  · exact c3_field_copying_amended.2.1 layers_TransformerLm layers_Ngrammer
      [("ngrammer_tpl", .node layers_Ngrammer
        [("ngram_vocab_size", .prim 64)])]
      [("ngram_vocab_size", .prim 64)] .PTQ .INFERENCE demo_wp
      "ngram_vocab_size" (.prim 64) rfl rfl (by decide) (by decide) rfl
  · exact c3_field_copying_amended.2.2.2.2.1 layers_TransformerFeedForward
      layers_FeedForward
      [("fflayer_tpl", .node layers_FeedForward [("linear_tpl", .prim 0)])]
      [("linear_tpl", .prim 0)] .PTQ .INFERENCE demo_wp none (-1) rfl
  · exact c3_field_copying_amended.2.2.2.2.2 layers_Transformer
      [("conv_tpl", .prim 0)] .PTQ .INFERENCE demo_wp none (.prim 0) rfl


/-- Whether the quantization parameters attached to a template carry
activation parameters. -/
def quantization_act_present (t : CVal) : Option Bool :=
  match t.getArg "quantization" with
  | some (.qparams q) => some q.act_params.isSome
  | _ => none

/-- Counterexample to C6: `set_transformer_quantization` called with
`weight_quant_only = false` and embedding/softmax quantization requested
attaches quantization parameters with no activation parameters to the
softmax replacement template, although weight-only quantization was not
requested. -/
theorem c6_act_params_iff_counterexample :
    ((set_transformer_quantization
        (.node layers_TransformerLm
          [("softmax_tpl", .node layers_SharedEmbeddingSoftmax [])])
        .PTQ .INFERENCE 8 false true (-1) false true false false
        JnpDType.int8 0 true JnpDType.int32).1.getArg
      "softmax_tpl").bind quantization_act_present = some false := by
  rfl

/-- C6 amended: the activation parameters constructed by the entry
points are present iff weight-only quantization was not requested, and
they are attached as such to the attention projection, combined-QKV,
one-headed projection, feed-forward linear and convolution replacement
templates; the embedding/softmax and ngrammer replacement templates,
however, never carry activation parameters. -/
theorem c6_act_params_amended (num_bits : Int) (wqo : Bool)
    (qt : QuantizationType) (mode : QuantizationMode)
    (wp : WeightQuantizationParams) :
    ((opt_act_quantization_params num_bits wqo).isSome = !wqo) ∧
    (∀ aCls aArgs,
      ((quantize_dot_product_attention_layer_weights (.node aCls aArgs) qt
        mode wp (opt_act_quantization_params num_bits wqo)).getArg
        "proj_tpl").bind quantization_act_present = some (!wqo) ∧
      ((quantize_dot_product_attention_layer_weights (.node aCls aArgs) qt
        mode wp (opt_act_quantization_params num_bits wqo)).getArg
        "combined_qkv_proj_tpl").bind quantization_act_present =
        some (!wqo)) ∧
    (∀ aCls aArgs,
      ((quantize_mq_dot_product_attention_layer_weights (.node aCls aArgs)
        qt mode wp (opt_act_quantization_params num_bits wqo)).getArg
        "proj_tpl").bind quantization_act_present = some (!wqo) ∧
      ((quantize_mq_dot_product_attention_layer_weights (.node aCls aArgs)
        qt mode wp (opt_act_quantization_params num_bits wqo)).getArg
        "headless_proj_tpl").bind quantization_act_present =
        some (!wqo)) ∧
    (∀ tfCls flCls tfArgs flArgs rank,
      lookupArg tfArgs "fflayer_tpl" = some (.node flCls flArgs) →
      (((quantize_transformer_feed_forward_layer_weights
          (.node tfCls tfArgs) qt mode wp
          (opt_act_quantization_params num_bits wqo) rank).1.getArg
          "fflayer_tpl").bind (fun fl => fl.getArg "linear_tpl")).bind
        quantization_act_present = some (!wqo)) ∧
    (∀ dCls dArgs w,
      lookupArg dArgs "conv_tpl" = some w →
      ((quantize_diffusion_conv_tpl (.node dCls dArgs) qt mode wp
        (opt_act_quantization_params num_bits wqo)).getArg
        "conv_tpl").bind quantization_act_present = some (!wqo)) ∧
    (∀ lmCls smCls lmArgs smArgs tes,
      lookupArg lmArgs "softmax_tpl" = some (.node smCls smArgs) →
      isSubclassOf smCls layers_SharedEmbeddingSoftmax = true →
      ((quantize_embedding_softmax_layer_weights (.node lmCls lmArgs) qt
        mode wp tes).1.getArg "softmax_tpl").bind
        quantization_act_present = some false) ∧
    (∀ lmCls nCls lmArgs nArgs,
      lookupArg lmArgs "ngrammer_tpl" = some (.node nCls nArgs) →
      isSubclassOf nCls layers_Ngrammer = true →
      ((quantize_ngrammer_embedding_weights (.node lmCls lmArgs) qt mode
        wp).1.getArg "ngrammer_tpl").bind quantization_act_present =
        some false) := by
  have hqkv : ("proj_tpl" : String) ≠ "combined_qkv_proj_tpl" := by decide
  have hhdl : ("proj_tpl" : String) ≠ "headless_proj_tpl" := by decide
  have hact : (opt_act_quantization_params num_bits wqo).isSome = !wqo := by
    cases wqo <;> simp [opt_act_quantization_params]
  refine ⟨hact, ?_, ?_, ?_, ?_, ?_, ?_⟩
  · intro aCls aArgs
    constructor
    · simp [quantize_dot_product_attention_layer_weights, CVal.setArg,
        CVal.getArg, lookupArg_setArgList_other _ _ _ _ hqkv,
        lookupArg_setArgList_same, quantization_act_present, lookupArg,
        hact]
    · simp [quantize_dot_product_attention_layer_weights, CVal.setArg,
        CVal.getArg, lookupArg_setArgList_same, quantization_act_present,
        lookupArg, hact]
  · intro aCls aArgs
    constructor
    · simp [quantize_mq_dot_product_attention_layer_weights, CVal.setArg,
        CVal.getArg, lookupArg_setArgList_other _ _ _ _ hhdl,
        lookupArg_setArgList_same, quantization_act_present, lookupArg,
        hact]
    · simp [quantize_mq_dot_product_attention_layer_weights, CVal.setArg,
        CVal.getArg, lookupArg_setArgList_same, quantization_act_present,
        lookupArg, hact]
  · intro tfCls flCls tfArgs flArgs rank hfl
    rw [quantize_transformer_feed_forward_layer_weights]
    simp [CVal.getArg, hfl, CVal.setArg, lookupArg_setArgList_same,
      quantization_act_present, lookupArg, hact]
  · intro dCls dArgs w hconv
    rw [quantize_diffusion_conv_tpl]
    simp [CVal.getArg, hconv, CVal.setArg, lookupArg_setArgList_same,
      quantization_act_present, lookupArg, hact]
  · intro lmCls smCls lmArgs smArgs tes hS hFam
    rw [quantize_embedding_softmax_layer_weights]
    cases tes <;>
      simp [CVal.getArg, hS, hFam, copy_fields_from, CVal.setArg,
        lookupArg_setArgList_same, quantization_act_present,
        copy_args_quantization, lookupArg]
  · intro lmCls nCls lmArgs nArgs hN hFam
    rw [quantize_ngrammer_embedding_weights]
    simp [CVal.getArg, hN, hFam, copy_fields_from, CVal.setArg,
      lookupArg_setArgList_same, quantization_act_present,
      copy_args_quantization, lookupArg]

/-- Witness for the amended C6 at concrete templates, with weight-only
quantization not requested. -/
theorem c6_act_params_amended_witness :
    ((((quantize_transformer_feed_forward_layer_weights
        (.node layers_TransformerFeedForward
          [("fflayer_tpl", .node layers_FeedForward
            [("linear_tpl", .prim 0)])])
        .PTQ .INFERENCE demo_wp
        (opt_act_quantization_params 8 false) (-1)).1.getArg
        "fflayer_tpl").bind (fun fl => fl.getArg "linear_tpl")).bind
      quantization_act_present = some true) ∧
    (((quantize_diffusion_conv_tpl
        (.node layers_Transformer [("conv_tpl", .prim 0)])
        .PTQ .INFERENCE demo_wp
        (opt_act_quantization_params 8 false)).getArg "conv_tpl").bind
      quantization_act_present = some true) ∧
    (((quantize_embedding_softmax_layer_weights
        (.node layers_TransformerLm
          [("softmax_tpl", .node layers_SharedEmbeddingSoftmax [])])
        .PTQ .INFERENCE demo_wp false).1.getArg "softmax_tpl").bind
      quantization_act_present = some false) ∧
    (((quantize_ngrammer_embedding_weights
        (.node layers_TransformerLm
          [("ngrammer_tpl", .node layers_Ngrammer [])])
        .PTQ .INFERENCE demo_wp).1.getArg "ngrammer_tpl").bind
      quantization_act_present = some false) := by
  refine ⟨?_, ?_, ?_, ?_⟩
  · exact (c6_act_params_amended 8 false .PTQ .INFERENCE
      demo_wp).2.2.2.1 layers_TransformerFeedForward layers_FeedForward
      [("fflayer_tpl", .node layers_FeedForward [("linear_tpl", .prim 0)])]
      [("linear_tpl", .prim 0)] (-1) rfl
  · exact (c6_act_params_amended 8 false .PTQ .INFERENCE
      demo_wp).2.2.2.2.1 layers_Transformer [("conv_tpl", .prim 0)]
      (.prim 0) rfl
  · exact (c6_act_params_amended 8 false .PTQ .INFERENCE
      demo_wp).2.2.2.2.2.1 layers_TransformerLm
      layers_SharedEmbeddingSoftmax
      [("softmax_tpl", .node layers_SharedEmbeddingSoftmax [])] [] false
      rfl rfl
  · exact (c6_act_params_amended 8 false .PTQ .INFERENCE
      demo_wp).2.2.2.2.2.2 layers_TransformerLm layers_Ngrammer
      [("ngrammer_tpl", .node layers_Ngrammer [])] [] rfl rfl


/-- The `assert num_bits in [2, 4, 8]` in both task() wrappers fails
before any quantization mutation, returning the task config unchanged. -/
theorem task_wrappers_assert_on_invalid_bits (num_bits : Int)
    (h2 : num_bits ≠ 2) (h4 : num_bits ≠ 4) (h8 : num_bits ≠ 8)
    (qt : QuantizationType) (mode : QuantizationMode)
    (use_symmetric : Bool) (rank : Int)
    (wqo qes tes qne lin qicrt : Bool) (dtype : JnpDType)
    (block_size : Int) (target : ClassInfo) (task_p : TaskP) :
    for_transformer_task num_bits qt mode use_symmetric rank wqo qes tes
      qne lin dtype qicrt block_size task_p =
      (task_p, some .assertionError) ∧
    for_diffusion_task target num_bits qt mode use_symmetric dtype wqo
      qicrt task_p = (task_p, some .assertionError) := by
  have hc : (([2, 4, 8] : List Int).contains num_bits) = false := by
    simp [List.contains, h2, h4, h8]
  constructor
  · rw [for_transformer_task, hc]
    simp
  · rw [for_diffusion_task, hc]
    simp

/-- C5: for every bit width outside 2, 4, 8, the `task()` wrappers
installed by `for_transformer` and `for_diffusion` raise an
`AssertionError` and return the produced task config unchanged: the
assertion precedes every quantization mutation. -/
theorem c5_invalid_bit_width_asserts (num_bits : Int)
    (h2 : num_bits ≠ 2) (h4 : num_bits ≠ 4) (h8 : num_bits ≠ 8)
    (qt : QuantizationType) (mode : QuantizationMode)
    (use_symmetric : Bool) (rank : Int)
    (wqo qes tes qne lin qicrt : Bool) (dtype : JnpDType)
    (block_size : Int) (target : ClassInfo) (task_p : TaskP) :
    for_transformer_task num_bits qt mode use_symmetric rank wqo qes tes
      qne lin dtype qicrt block_size task_p =
      (task_p, some .assertionError) ∧
    for_diffusion_task target num_bits qt mode use_symmetric dtype wqo
      qicrt task_p = (task_p, some .assertionError) :=
  task_wrappers_assert_on_invalid_bits num_bits h2 h4 h8 qt mode
    use_symmetric rank wqo qes tes qne lin qicrt dtype block_size target
    task_p

/-- Witness for C5 at bit width 6 and a concrete task config. -/
theorem c5_invalid_bit_width_asserts_witness :
    for_transformer_task 6 .FQ .TRAINING true (-1) true false false false
      false JnpDType.int8 false 0
      (TaskP.mk (.node layers_Transformer demo_tr_args) []) =
      (TaskP.mk (.node layers_Transformer demo_tr_args) [],
       some .assertionError) ∧
    for_diffusion_task layers_Transformer 6 .FQ .TRAINING true
      JnpDType.int8 true false
      (TaskP.mk (.node layers_Transformer demo_tr_args) []) =
      (TaskP.mk (.node layers_Transformer demo_tr_args) [],
       some .assertionError) :=
  c5_invalid_bit_width_asserts 6 (by decide) (by decide) (by decide) .FQ
    .TRAINING true (-1) true false false false false false JnpDType.int8 0
    layers_Transformer (TaskP.mk (.node layers_Transformer demo_tr_args) [])


/-! Lemmas for `set_inference_mode` (C7). -/

theorem set_q_mode_val_idem (v : CVal) :
    set_q_mode_val (set_q_mode_val v) = set_q_mode_val v := by
  cases v <;> rfl

theorem set_inference_mode_set_q_comm (v : CVal) :
    set_inference_mode (set_q_mode_val v) =
      set_q_mode_val (set_inference_mode v) := by
  cases v <;> rfl

theorem setInfArgs_sq_comm (as : List (String × CVal)) :
    setInfArgs (set_quantization_mode_inference_args as) =
      set_quantization_mode_inference_args (setInfArgs as) := by
  induction as with
  | nil => rfl
  | cons hd tl ih =>
      obtain ⟨k, v⟩ := hd
      by_cases hk : k = "quantization"
      · subst hk
        simp [set_quantization_mode_inference_args, setInfArgs,
          set_inference_mode_set_q_comm, ih]
      · simp [set_quantization_mode_inference_args, setInfArgs, hk, ih]

theorem sq_idem (as : List (String × CVal)) :
    set_quantization_mode_inference_args
      (set_quantization_mode_inference_args as) =
      set_quantization_mode_inference_args as := by
  induction as with
  | nil => rfl
  | cons hd tl ih =>
      obtain ⟨k, v⟩ := hd
      by_cases hk : k = "quantization"
      · subst hk
        simp [set_quantization_mode_inference_args, set_q_mode_val_idem, ih]
      · simp [set_quantization_mode_inference_args, hk, ih]

mutual

theorem set_inference_mode_idem : (v : CVal) →
    set_inference_mode (set_inference_mode v) = set_inference_mode v
  | .prim _ => rfl
  | .pynone => rfl
  | .qparams _ => rfl
  | .node c as => by
      rw [set_inference_mode, set_inference_mode, setInfArgs_sq_comm,
        setInfArgs_idem as, sq_idem]
  | .seq es => by
      rw [set_inference_mode, set_inference_mode, setInfElems_idem es]

theorem setInfArgs_idem : (as : List (String × CVal)) →
    setInfArgs (setInfArgs as) = setInfArgs as
  | [] => rfl
  | (k, v) :: rest => by
      rw [setInfArgs, setInfArgs, set_inference_mode_idem v,
        setInfArgs_idem rest]

theorem setInfElems_idem : (es : List CVal) →
    setInfElems (setInfElems es) = setInfElems es
  | [] => rfl
  | v :: rest => by
      rw [setInfElems, setInfElems, setInfElem_idem v,
        setInfElems_idem rest]

theorem setInfElem_idem : (v : CVal) →
    setInfElem (setInfElem v) = setInfElem v
  | .prim _ => rfl
  | .pynone => rfl
  | .qparams _ => rfl
  | .seq _ => rfl
  | .node c as => by
      rw [setInfElem, setInfElem, setInfArgs_sq_comm, setInfArgs_idem as,
        sq_idem]

end

theorem forget_modes_set_q (v : CVal) :
    forget_modes (set_q_mode_val v) = forget_modes v := by
  cases v <;> rfl

theorem forgetArgs_sq (as : List (String × CVal)) :
    forgetArgs (set_quantization_mode_inference_args as) = forgetArgs as := by
  induction as with
  | nil => rfl
  | cons hd tl ih =>
      obtain ⟨k, v⟩ := hd
      by_cases hk : k = "quantization"
      · subst hk
        simp [set_quantization_mode_inference_args, forgetArgs,
          forget_modes_set_q, ih]
      · simp [set_quantization_mode_inference_args, forgetArgs, hk, ih]

mutual

theorem forget_modes_set_inference : (v : CVal) →
    forget_modes (set_inference_mode v) = forget_modes v
  | .prim _ => rfl
  | .pynone => rfl
  | .qparams _ => rfl
  | .node c as => by
      rw [set_inference_mode, forget_modes, forgetArgs_sq,
        forgetArgs_setInfArgs as, forget_modes]
  | .seq es => by
      rw [set_inference_mode, forget_modes, forgetElems_setInfElems es,
        forget_modes]

theorem forgetArgs_setInfArgs : (as : List (String × CVal)) →
    forgetArgs (setInfArgs as) = forgetArgs as
  | [] => rfl
  | (k, v) :: rest => by
      rw [setInfArgs, forgetArgs, forget_modes_set_inference v,
        forgetArgs_setInfArgs rest, forgetArgs]

theorem forgetElems_setInfElems : (es : List CVal) →
    forgetElems (setInfElems es) = forgetElems es
  | [] => rfl
  | v :: rest => by
      rw [setInfElems, forgetElems, forget_modes_setInfElem v,
        forgetElems_setInfElems rest, forgetElems]

theorem forget_modes_setInfElem : (v : CVal) →
    forget_modes (setInfElem v) = forget_modes v
  | .prim _ => rfl
  | .pynone => rfl
  | .qparams _ => rfl
  | .seq _ => rfl
  | .node c as => by
      rw [setInfElem, forget_modes, forgetArgs_sq,
        forgetArgs_setInfArgs as, forget_modes]

end

theorem lookupArg_sq_quantization (as : List (String × CVal)) :
    lookupArg (set_quantization_mode_inference_args as) "quantization" =
      (lookupArg as "quantization").map set_q_mode_val := by
  induction as with
  | nil => rfl
  | cons hd tl ih =>
      obtain ⟨k, v⟩ := hd
      by_cases hk : k = "quantization"
      · subst hk
        simp [set_quantization_mode_inference_args, lookupArg]
      · simp [set_quantization_mode_inference_args, lookupArg, hk, ih]

theorem walk_modes_set_q_val (v : CVal) :
    walk_modes_inference (set_q_mode_val v) = walk_modes_inference v := by
  cases v <;> rfl

theorem walkModesArgs_sq (as : List (String × CVal)) :
    walkModesArgs (set_quantization_mode_inference_args as) =
      walkModesArgs as := by
  induction as with
  | nil => rfl
  | cons hd tl ih =>
      obtain ⟨k, v⟩ := hd
      by_cases hk : k = "quantization"
      · subst hk
        simp [set_quantization_mode_inference_args, walkModesArgs,
          walk_modes_set_q_val, ih]
      · simp [set_quantization_mode_inference_args, walkModesArgs, hk, ih]

theorem quant_arg_inference_sq (as : List (String × CVal)) :
    quant_arg_inference (set_quantization_mode_inference_args as) =
      true := by
  rw [quant_arg_inference, lookupArg_sq_quantization]
  cases lookupArg as "quantization" with
  | none => rfl
  | some v => cases v <;> rfl

mutual

theorem walk_set_inference_mode : (v : CVal) →
    walk_modes_inference (set_inference_mode v) = true
  | .prim _ => rfl
  | .pynone => rfl
  | .qparams _ => rfl
  | .node c as => by
      rw [set_inference_mode, walk_modes_inference, quant_arg_inference_sq,
        walkModesArgs_sq, walkArgs_setInfArgs as]
      rfl
  | .seq es => by
      rw [set_inference_mode, walk_modes_inference,
        walkElems_setInfElems es]

theorem walkArgs_setInfArgs : (as : List (String × CVal)) →
    walkModesArgs (setInfArgs as) = true
  | [] => rfl
  | (k, v) :: rest => by
      rw [setInfArgs, walkModesArgs, walk_set_inference_mode v,
        walkArgs_setInfArgs rest]
      rfl

theorem walkElems_setInfElems : (es : List CVal) →
    walkModesElems (setInfElems es) = true
  | [] => rfl
  | v :: rest => by
      rw [setInfElems, walkModesElems, walkElem_setInfElem v,
        walkElems_setInfElems rest]
      rfl

theorem walkElem_setInfElem : (v : CVal) →
    walkModesElem (setInfElem v) = true
  | .prim _ => rfl
  | .pynone => rfl
  | .qparams _ => rfl
  | .seq _ => rfl
  | .node c as => by
      rw [setInfElem, walkModesElem, quant_arg_inference_sq,
        walkModesArgs_sq, walkArgs_setInfArgs as]
      rfl

end

/-- A config whose quantization-carrying node sits inside a sequence
nested directly inside another sequence: outside the reach of the
one-level-sequence walk. -/
def seq_in_seq_demo : CVal :=
  .node layers_TransformerLm
    [("stacked", .seq [.seq [.node quantization_Linear
      [("quantization", .qparams
        { quantization_type := .PTQ
          mode := .TRAINING
          act_params := none
          weight_params := none })]]])]

/-- Counterexample to C7: the walk of `set_inference_mode` unwraps only
one level of sequence, so the quantization-carrying node of
`seq_in_seq_demo` is never visited: the call leaves the whole graph
unchanged, and the node's mode stays TRAINING, refuting the claim that
every node carrying a quantization argument has its mode set to
INFERENCE. -/
theorem c7_universal_flip_counterexample :
    set_inference_mode seq_in_seq_demo = seq_in_seq_demo ∧
    quant_modes_inference (set_inference_mode seq_in_seq_demo) = false :=
  ⟨rfl, rfl⟩

/-- C7 amended: `set_inference_mode` is idempotent, changes nothing but
quantization modes (the graphs agree once all modes are normalized),
and sets mode INFERENCE on every node its walk reaches — through node
arguments and through one level of sequence-valued arguments; an
element of a popped sequence that is itself a sequence is dropped
unmodified, so nodes below it keep their modes. -/
theorem c7_set_inference_mode_amended :
    (∀ v, set_inference_mode (set_inference_mode v) =
      set_inference_mode v) ∧
    (∀ v, forget_modes (set_inference_mode v) = forget_modes v) ∧
    (∀ v, walk_modes_inference (set_inference_mode v) = true) ∧
    (∀ es, setInfElem (.seq es) = .seq es) :=
  ⟨set_inference_mode_idem, forget_modes_set_inference,
   walk_set_inference_mode, fun _ => rfl⟩


/-! Lemmas for C10: the entry points contain no bit-width check, so an
assertion-style error can never arise from them; the `assert` lives only
in the decorator wrappers. -/

/-- Whether a raised error is the assertion-style invariant violation. -/
def is_assertion_error : Option PyErr → Bool
  | some .assertionError => true
  | _ => false

theorem qeslw_no_assert (lm : CVal) (qt : QuantizationType)
    (mode : QuantizationMode) (wp : WeightQuantizationParams) (tes : Bool) :
    is_assertion_error
      (quantize_embedding_softmax_layer_weights lm qt mode wp tes).2 =
      false := by
  rw [quantize_embedding_softmax_layer_weights]
  cases lm with
  | node c as =>
      simp only [CVal.getArg]
      cases lookupArg as "softmax_tpl" with
      | none => rfl
      | some v =>
          cases v with
          | node sc sas =>
              by_cases h1 : isSubclassOf sc layers_SharedEmbeddingSoftmax
              · simp [h1, is_assertion_error]
              · simp [h1, is_assertion_error]
          | prim n => rfl
          | pynone => rfl
          | qparams q => rfl
          | seq es => rfl
  | prim n => rfl
  | pynone => rfl
  | qparams q => rfl
  | seq es => rfl

theorem qngw_no_assert (lm : CVal) (qt : QuantizationType)
    (mode : QuantizationMode) (wp : WeightQuantizationParams) :
    is_assertion_error
      (quantize_ngrammer_embedding_weights lm qt mode wp).2 = false := by
  rw [quantize_ngrammer_embedding_weights]
  cases lm with
  | node c as =>
      simp only [CVal.getArg]
      cases lookupArg as "ngrammer_tpl" with
      | none => rfl
      | some v =>
          cases v with
          | node nc nas =>
              by_cases h1 : isSubclassOf nc layers_Ngrammer
              · simp [h1, is_assertion_error]
              · by_cases h2 : isSubclassOf nc layers_VQNgrammer
                · simp [h1, h2, is_assertion_error]
                · simp [h1, h2, is_assertion_error]
          | prim n => rfl
          | pynone => rfl
          | qparams q => rfl
          | seq es => rfl
  | prim n => rfl
  | pynone => rfl
  | qparams q => rfl
  | seq es => rfl

theorem qalw_no_assert (tr : CVal) (qt : QuantizationType)
    (mode : QuantizationMode) (wp : WeightQuantizationParams)
    (ap : Option ActQuantizationParams) :
    is_assertion_error
      (quantize_attention_layer_weights tr qt mode wp ap).2 = false := by
  rw [quantize_attention_layer_weights]
  cases tr with
  | node c as =>
      simp only [CVal.getArg]
      cases lookupArg as "tr_atten_tpl" with
      | none => rfl
      | some v =>
          cases v with
          | node ac aas =>
              by_cases h1 : isSubclassOf ac layers_DotProductAttention
              · simp [h1, is_assertion_error]
              · by_cases h2 :
                  strHasSub ac.name "MultiQueryDotProductAttention"
                · simp [h1, h2, is_assertion_error]
                · simp [h1, h2, is_assertion_error]
          | prim n => rfl
          | pynone => rfl
          | qparams q => rfl
          | seq es => rfl
  | prim n => rfl
  | pynone => rfl
  | qparams q => rfl
  | seq es => rfl

theorem qtffw_no_assert (ff : CVal) (qt : QuantizationType)
    (mode : QuantizationMode) (wp : WeightQuantizationParams)
    (ap : Option ActQuantizationParams) (rank : Int) :
    is_assertion_error
      (quantize_transformer_feed_forward_layer_weights ff qt mode wp ap
        rank).2 = false := by
  rw [quantize_transformer_feed_forward_layer_weights]
  cases ff with
  | node c as =>
      simp only [CVal.getArg]
      cases lookupArg as "fflayer_tpl" with
      | none => rfl
      | some v => cases v <;> rfl
  | prim n => rfl
  | pynone => rfl
  | qparams q => rfl
  | seq es => rfl

theorem qtlw_no_assert (tr : CVal) (qt : QuantizationType)
    (mode : QuantizationMode) (wp : WeightQuantizationParams)
    (ap : Option ActQuantizationParams) (lin : Bool) (rank : Int) :
    is_assertion_error
      (quantize_transformer_layer_weights tr qt mode wp ap lin rank).2 =
      false := by
  rw [quantize_transformer_layer_weights]
  have hAA : is_assertion_error
      ((if lin then (tr, none)
        else quantize_attention_layer_weights tr qt mode wp ap).2) =
      false := by
    cases lin with
    | true => rfl
    | false => simpa using qalw_no_assert tr qt mode wp ap
  cases hA : (if lin then (tr, none)
      else quantize_attention_layer_weights tr qt mode wp ap) with
  | mk tr1 e1 =>
      rw [hA] at hAA
      cases e1 with
      | some err => simpa using hAA
      | none =>
          simp only
          cases tr1 with
          | node c as =>
              simp only [CVal.getArg]
              cases lookupArg as "tr_fflayer_tpl" with
              | none => rfl
              | some v =>
                  cases v with
                  | node fc fas =>
                      have hff := qtffw_no_assert (.node fc fas) qt mode wp
                        ap rank
                      cases hF : quantize_transformer_feed_forward_layer_weights
                          (.node fc fas) qt mode wp ap rank with
                      | mk ff' e2 =>
                          rw [hF] at hff
                          cases e2 with
                          | some err2 =>
                              simp only [hF]
                              simpa using hff
                          | none => simp only [hF]; rfl
                  | prim n => rfl
                  | pynone => rfl
                  | qparams q => rfl
                  | seq es => rfl
          | prim n => rfl
          | pynone => rfl
          | qparams q => rfl
          | seq es => rfl

mutual

theorem rewrite_no_assert (t : ClassInfo) (f : CVal → CVal × Option PyErr)
    (hf : ∀ v, is_assertion_error (f v).2 = false) : (v : CVal) →
    is_assertion_error (rewrite_target_tpls t f v).2 = false
  | .prim _ => rfl
  | .pynone => rfl
  | .qparams _ => rfl
  | .node c as => by
      rw [rewrite_target_tpls]
      have hargs := rewriteArgs_no_assert t f hf as
      cases hA : rewriteTplArgs t f as with
      | mk as' e =>
          rw [hA] at hargs
          cases e with
          | some err => simpa using hargs
          | none =>
              by_cases hcls : isSubclassOf c t
              · simpa [hcls] using hf (.node c as')
              · simp [hcls, is_assertion_error]
  | .seq es => by
      rw [rewrite_target_tpls]
      have helems := rewriteElems_no_assert t f hf es
      cases hE : rewriteTplElems t f es with
      | mk es' e => rw [hE] at helems; simpa using helems

theorem rewriteArgs_no_assert (t : ClassInfo)
    (f : CVal → CVal × Option PyErr)
    (hf : ∀ v, is_assertion_error (f v).2 = false) :
    (as : List (String × CVal)) →
    is_assertion_error (rewriteTplArgs t f as).2 = false
  | [] => rfl
  | (k, v) :: rest => by
      rw [rewriteTplArgs]
      have hv := rewrite_no_assert t f hf v
      cases hV : rewrite_target_tpls t f v with
      | mk v' e =>
          rw [hV] at hv
          cases e with
          | some err => simpa using hv
          | none =>
              have hrest := rewriteArgs_no_assert t f hf rest
              cases hR : rewriteTplArgs t f rest with
              | mk rest' e2 => rw [hR] at hrest; simpa using hrest

theorem rewriteElems_no_assert (t : ClassInfo)
    (f : CVal → CVal × Option PyErr)
    (hf : ∀ v, is_assertion_error (f v).2 = false) : (es : List CVal) →
    is_assertion_error (rewriteTplElems t f es).2 = false
  | [] => rfl
  | v :: rest => by
      rw [rewriteTplElems]
      have hv := rewrite_no_assert t f hf v
      cases hV : rewrite_target_tpls t f v with
      | mk v' e =>
          rw [hV] at hv
          cases e with
          | some err => simpa using hv
          | none =>
              have hrest := rewriteElems_no_assert t f hf rest
              cases hR : rewriteTplElems t f rest with
              | mk rest' e2 => rw [hR] at hrest; simpa using hrest

end

theorem stq_no_assert (cfg : CVal) (qt : QuantizationType)
    (mode : QuantizationMode) (nb : Int) (lin sym : Bool) (rank : Int)
    (wqo qes tes qne : Bool) (dt : JnpDType) (bs : Int) (u4 : Bool)
    (cd : JnpDType) :
    is_assertion_error
      (set_transformer_quantization cfg qt mode nb lin sym rank wqo qes
        tes qne dt bs u4 cd).2 = false := by
  rw [set_transformer_quantization]
  have h1 := rewrite_no_assert layers_Transformer
    (fun tr => quantize_transformer_layer_weights tr qt mode
      (stq_weight_quantization_params nb sym dt bs u4 cd)
      (opt_act_quantization_params nb wqo) lin rank)
    (fun v => qtlw_no_assert v qt mode _ _ lin rank) cfg
  cases hA : rewrite_target_tpls layers_Transformer
      (fun tr => quantize_transformer_layer_weights tr qt mode
        (stq_weight_quantization_params nb sym dt bs u4 cd)
        (opt_act_quantization_params nb wqo) lin rank) cfg with
  | mk cfg1 e1 =>
      rw [hA] at h1
      cases e1 with
      | some err => simpa using h1
      | none =>
          simp only
          by_cases hq : (qes || qne) = true
          · rw [if_pos hq]
            apply rewrite_no_assert
            intro lm
            have hAA : is_assertion_error
                ((if qes then
                  quantize_embedding_softmax_layer_weights lm qt mode
                    (stq_weight_quantization_params nb sym dt bs u4 cd) tes
                else (lm, none)).2) = false := by
              cases qes with
              | true => simpa using qeslw_no_assert lm qt mode _ tes
              | false => rfl
            cases hS : (if qes then
                quantize_embedding_softmax_layer_weights lm qt mode
                  (stq_weight_quantization_params nb sym dt bs u4 cd) tes
              else (lm, none)) with
            | mk lm1 es1 =>
                rw [hS] at hAA
                cases es1 with
                | some err2 => simpa using hAA
                | none =>
                    simp only
                    cases qne with
                    | true => simpa using qngw_no_assert lm1 qt mode _
                    | false => rfl
          · rw [if_neg hq]
            rfl

theorem sdq_never_raises (cfg : CVal) (target : ClassInfo)
    (qt : QuantizationType) (mode : QuantizationMode) (nb : Int)
    (sym wqo : Bool) (dt : JnpDType) :
    is_assertion_error
      (set_diffusion_quantization cfg target qt mode nb sym wqo dt).2 =
      false := by
  rw [set_diffusion_quantization]
  exact rewrite_no_assert target
    (fun diffusion_tpl =>
      (quantize_diffusion_conv_tpl diffusion_tpl qt mode
        (sdq_weight_quantization_params nb sym dt)
        (opt_act_quantization_params nb wqo), none))
    (fun v => rfl) cfg


mutual

/-- A per-match rewrite that never raises lifts to a traversal that
never raises. -/
theorem rewrite_total (t : ClassInfo) (f : CVal → CVal × Option PyErr)
    (hf : ∀ v, (f v).2 = none) : (v : CVal) →
    (rewrite_target_tpls t f v).2 = none
  | .prim _ => rfl
  | .pynone => rfl
  | .qparams _ => rfl
  | .node c as => by
      rw [rewrite_target_tpls]
      have hargs := rewriteArgs_total t f hf as
      cases hA : rewriteTplArgs t f as with
      | mk as' e =>
          rw [hA] at hargs
          cases e with
          | some err => exact absurd hargs (by simp)
          | none =>
              by_cases hcls : isSubclassOf c t
              · simpa [hcls] using hf (.node c as')
              · simp [hcls]
  | .seq es => by
      rw [rewrite_target_tpls]
      have helems := rewriteElems_total t f hf es
      cases hE : rewriteTplElems t f es with
      | mk es' e => rw [hE] at helems; simpa using helems

/-- Argument-list companion of `rewrite_total`. -/
theorem rewriteArgs_total (t : ClassInfo) (f : CVal → CVal × Option PyErr)
    (hf : ∀ v, (f v).2 = none) : (as : List (String × CVal)) →
    (rewriteTplArgs t f as).2 = none
  | [] => rfl
  | (k, v) :: rest => by
      rw [rewriteTplArgs]
      have hv := rewrite_total t f hf v
      cases hV : rewrite_target_tpls t f v with
      | mk v' e =>
          rw [hV] at hv
          cases e with
          | some err => exact absurd hv (by simp)
          | none =>
              have hrest := rewriteArgs_total t f hf rest
              cases hR : rewriteTplArgs t f rest with
              | mk rest' e2 => rw [hR] at hrest; simpa using hrest

/-- Sequence companion of `rewrite_total`. -/
theorem rewriteElems_total (t : ClassInfo) (f : CVal → CVal × Option PyErr)
    (hf : ∀ v, (f v).2 = none) : (es : List CVal) →
    (rewriteTplElems t f es).2 = none
  | [] => rfl
  | v :: rest => by
      rw [rewriteTplElems]
      have hv := rewrite_total t f hf v
      cases hV : rewrite_target_tpls t f v with
      | mk v' e =>
          rw [hV] at hv
          cases e with
          | some err => exact absurd hv (by simp)
          | none =>
              have hrest := rewriteElems_total t f hf rest
              cases hR : rewriteTplElems t f rest with
              | mk rest' e2 => rw [hR] at hrest; simpa using hrest

end

/-- `set_diffusion_quantization` raises no error on any input. -/
theorem sdq_total (cfg : CVal) (target : ClassInfo)
    (qt : QuantizationType) (mode : QuantizationMode) (nb : Int)
    (sym wqo : Bool) (dt : JnpDType) :
    (set_diffusion_quantization cfg target qt mode nb sym wqo dt).2 =
      none := by
  rw [set_diffusion_quantization]
  exact rewrite_total target
    (fun diffusion_tpl =>
      (quantize_diffusion_conv_tpl diffusion_tpl qt mode
        (sdq_weight_quantization_params nb sym dt)
        (opt_act_quantization_params nb wqo), none))
    (fun v => rfl) cfg

/-- C10: the direct entry points perform no bit-width validation: every
integer `num_bits` is stored unchanged as the precision of the
constructed weight (and, when weight-only quantization was not
requested, activation) parameters; `set_transformer_quantization` can
never produce the assertion-style invariant violation,
`set_diffusion_quantization` never raises at all, and the 2/4/8
restriction is enforced only by the `assert` inside the decorator
`task()` wrappers. -/
theorem c10_entry_points_skip_bit_width_check :
    (∀ nb sym dt bs u4 cd,
      (stq_weight_quantization_params nb sym dt bs u4 cd).precision =
        nb) ∧
    (∀ nb sym dt,
      (sdq_weight_quantization_params nb sym dt).precision = nb) ∧
    (∀ nb : Int,
      opt_act_quantization_params nb false = some { precision := nb }) ∧
    (∀ cfg qt mode nb lin sym rank wqo qes tes qne dt bs u4 cd,
      is_assertion_error
        (set_transformer_quantization cfg qt mode nb lin sym rank wqo qes
          tes qne dt bs u4 cd).2 = false) ∧
    (∀ cfg target qt mode nb sym wqo dt,
      (set_diffusion_quantization cfg target qt mode nb sym wqo dt).2 =
        none) ∧
    (∀ nb : Int, nb ≠ 2 → nb ≠ 4 → nb ≠ 8 →
      ∀ qt mode sym rank wqo qes tes qne lin qicrt dt bs target task_p,
      for_transformer_task nb qt mode sym rank wqo qes tes qne lin dt
        qicrt bs task_p = (task_p, some .assertionError) ∧
      for_diffusion_task target nb qt mode sym dt wqo qicrt task_p =
        (task_p, some .assertionError)) :=
  ⟨fun _ _ _ _ _ _ => rfl,
   fun _ _ _ => rfl,
   fun _ => rfl,
   fun cfg qt mode nb lin sym rank wqo qes tes qne dt bs u4 cd =>
     stq_no_assert cfg qt mode nb lin sym rank wqo qes tes qne dt bs u4 cd,
   fun cfg target qt mode nb sym wqo dt =>
     sdq_total cfg target qt mode nb sym wqo dt,
   fun nb h2 h4 h8 qt mode sym rank wqo qes tes qne lin qicrt dt bs target
       task_p =>
     task_wrappers_assert_on_invalid_bits nb h2 h4 h8 qt mode sym rank wqo
       qes tes qne lin qicrt dt bs target task_p⟩

/-- Witness for C10 at bit width 6: the direct entry points accept it
and store it as the precision, while the wrappers reject it. -/
theorem c10_entry_points_skip_bit_width_check_witness :
    (stq_weight_quantization_params 6 true JnpDType.int8 0 true
      JnpDType.int32).precision = 6 ∧
    opt_act_quantization_params 6 false = some { precision := 6 } ∧
    is_assertion_error
      (set_transformer_quantization (.node layers_Transformer demo_tr_args)
        .PTQ .INFERENCE 6 false true (-1) true false false false
        JnpDType.int8 0 true JnpDType.int32).2 = false ∧
    (set_diffusion_quantization (.node layers_Transformer demo_tr_args)
      layers_Transformer .PTQ .INFERENCE 6 true true JnpDType.int8).2 =
      none ∧
    for_transformer_task 6 .FQ .TRAINING true (-1) true false false false
      false JnpDType.int8 false 0
      (TaskP.mk (.node layers_Transformer demo_tr_args) []) =
      (TaskP.mk (.node layers_Transformer demo_tr_args) [],
       some .assertionError) :=
  ⟨c10_entry_points_skip_bit_width_check.1 6 true JnpDType.int8 0 true
    JnpDType.int32,
   c10_entry_points_skip_bit_width_check.2.2.1 6,
   c10_entry_points_skip_bit_width_check.2.2.2.1
     (.node layers_Transformer demo_tr_args) .PTQ .INFERENCE 6 false true
     (-1) true false false false JnpDType.int8 0 true JnpDType.int32,
   c10_entry_points_skip_bit_width_check.2.2.2.2.1
     (.node layers_Transformer demo_tr_args) layers_Transformer .PTQ
     .INFERENCE 6 true true JnpDType.int8,
   (c10_entry_points_skip_bit_width_check.2.2.2.2.2 6 (by decide)
     (by decide) (by decide) .FQ .TRAINING true (-1) true false false
     false false false JnpDType.int8 0 layers_Transformer
     (TaskP.mk (.node layers_Transformer demo_tr_args) [])).1⟩

end Praxis
